import Mathlib

/-!
Verification development for the Twin64 processor simulator core.

The definitions below are a shallow embedding, in Lean 4, of the C++ sources

  src/Twin64-Libraries/Twin64-Common/T64-Util.h
  src/Twin64-Libraries/Twin64-Processor/T64-Cpu.cpp
  src/Twin64-Libraries/Twin64-InlineAsm/T64-InlineAsm.cpp
  src/Twin64-Libraries/Twin64-InlineAsm/T64-InlineDisAsm.cpp

Modelling conventions.

  * A T64Word (C++ int64_t) is modelled as an Int; every operation that the
    C++ performs on the underlying two's-complement bit pattern goes through
    pat64 (the 64-bit pattern of an Int) and sval64 (the signed value of a
    64-bit pattern), with wrap-around made explicit by reduction mod 2^64.
  * A T64Instr (C++ uint32_t) is modelled as a Nat; deposits reduce mod 2^32
    exactly where the 32-bit register would truncate.
  * Routines that raise a C++ exception are modelled in an Except monad; the
    try/catch boundaries of the source become matches on the Except value.
  * Numeric constants that live in the header T64-Common.h, which is not part
    of the sources (only its users are), are modelled from the specification
    and are marked "Modelled from the spec" at their declaration.
-/

namespace Twin64

/-! ## Two's-complement helpers for the 64-bit word model -/

/-- Largest signed 64-bit value, INT64_MAX. -/
def I64MAX : Int := 9223372036854775807

/-- Smallest signed 64-bit value, INT64_MIN. -/
def I64MIN : Int := -9223372036854775808

/-- The 64-bit two's-complement bit pattern of an integer. -/
def pat64 (v : Int) : Nat := (v.emod (2 ^ 64)).toNat

/-- The signed value denoted by a 64-bit pattern. -/
def sval64 (p : Nat) : Int :=
  let q : Nat := p % 2 ^ 64
  if q < 2 ^ 63 then (q : Int) else (q : Int) - 2 ^ 64

/-- Reduce an integer to the signed 64-bit value with the same low 64 bits
(the effect of int64_t wrap-around in the C++). -/
def wrap64 (v : Int) : Int := sval64 (pat64 v)

/-- Two's-complement bitwise AND of two 64-bit words. -/
def landW (a b : Int) : Int := sval64 (pat64 a &&& pat64 b)

/-- Two's-complement bitwise OR of two 64-bit words. -/
def lorW (a b : Int) : Int := sval64 (pat64 a ||| pat64 b)

/-- Two's-complement bitwise XOR of two 64-bit words. -/
def lxorW (a b : Int) : Int := sval64 (pat64 a ^^^ pat64 b)

/-- Two's-complement bitwise NOT of a 64-bit word (the C++ operator ~). -/
def lnotW (a : Int) : Int := -(a + 1)

/-- Arithmetic shift right of a signed 64-bit word (C++ signed. -/
def asrW (v : Int) (k : Nat) : Int := Int.fdiv v (2 ^ k)

/-- Left shift of a signed 64-bit word with int64_t wrap-around. -/
def shlW (v : Int) (k : Nat) : Int := wrap64 (v * 2 ^ k)

/-! ## T64-Util.h: range and alignment checks -/

/-- Source isInRange: low <= adr <= high. -/
def isInRange (adr low high : Int) : Bool := (adr ≥ low) && (adr ≤ high)

/-- Source isAlignedDataAdr: align must be 1, 2, 4 or 8, and the low bits of
adr below align must be zero (the C++ tests adr & (align - 1)). -/
def isAlignedDataAdr (adr : Int) (align : Int) : Bool :=
  if (align = 1) || (align = 2) || (align = 4) || (align = 8) then
    pat64 adr &&& (align.toNat - 1) == 0
  else false

/-- Source isAlignedOfs: ofs & (align - 1) == 0 (align is a power of two at
every call site). -/
def isAlignedOfs (ofs : Int) (align : Int) : Bool :=
  pat64 ofs &&& (align.toNat - 1) == 0

/-- Source isInRangeForInstrBitFieldS over int values. -/
def isInRangeForInstrBitFieldS (val : Int) (bitLen : Nat) : Bool :=
  let lo : Int := -(2 ^ ((bitLen - 1) % 64))
  let hi : Int := 2 ^ ((bitLen - 1) % 64) - 1
  (val ≤ hi) && (val ≥ lo)

/-- Source isInRangeForInstrBitFieldU over uint32 values. -/
def isInRangeForInstrBitFieldU (val : Nat) (bitLen : Nat) : Bool :=
  val ≤ 2 ^ (bitLen % 64) - 1

/-! ## T64-Util.h: instruction field extraction -/

/-- Source extractInstrBit. -/
def extractInstrBit (arg : Nat) (bitpos : Nat) : Nat :=
  if bitpos > 31 then 0 else (arg >>> bitpos) &&& 1

/-- Source extractInstrFieldU. -/
def extractInstrFieldU (arg : Nat) (bitpos len : Nat) : Nat :=
  if bitpos > 31 then 0
  else if bitpos + len > 32 then 0
  else (arg >>> bitpos) &&& (2 ^ len - 1)

/-- Source extractInstrFieldS: the len-bit field at bitpos, sign extended
(the C++ achieves the sign extension with an int32 shift pair). -/
def extractInstrFieldS (arg : Nat) (bitpos len : Nat) : Int :=
  if len = 0 then 0
  else
    let field := (arg >>> bitpos) &&& (2 ^ len - 1)
    if field < 2 ^ (len - 1) then (field : Int) else (field : Int) - 2 ^ len

/-- Source extractInstrOpGroup: bits 31..30. -/
def extractInstrOpGroup (instr : Nat) : Nat := extractInstrFieldU instr 30 2

/-- Source extractInstrOpCode: bits 29..26. -/
def extractInstrOpCode (instr : Nat) : Nat := extractInstrFieldU instr 26 4

/-- Source extractInstrOptField: bits 21..19. -/
def extractInstrOptField (instr : Nat) : Nat := extractInstrFieldU instr 19 3

/-- Source extractInstrRegR: bits 25..22. -/
def extractInstrRegR (instr : Nat) : Nat := extractInstrFieldU instr 22 4

/-- Source extractInstrRegB: bits 18..15. -/
def extractInstrRegB (instr : Nat) : Nat := extractInstrFieldU instr 15 4

/-- Source extractInstrRegA: bits 12..9. -/
def extractInstrRegA (instr : Nat) : Nat := extractInstrFieldU instr 9 4

/-- Source extractInstrDwField: bits 14..13. -/
def extractInstrDwField (instr : Nat) : Nat := extractInstrFieldU instr 13 2

/-- Source extractInstrSignedImm13. -/
def extractInstrSignedImm13 (instr : Nat) : Int := extractInstrFieldS instr 0 13

/-- Source extractInstrSignedScaledImm13: imm13 shifted left by the DW field. -/
def extractInstrSignedScaledImm13 (instr : Nat) : Int :=
  extractInstrSignedImm13 instr * 2 ^ extractInstrDwField instr

/-- Source extractInstrSignedImm15. -/
def extractInstrSignedImm15 (instr : Nat) : Int := extractInstrFieldS instr 0 15

/-- Source extractInstrSignedImm19. -/
def extractInstrSignedImm19 (instr : Nat) : Int := extractInstrFieldS instr 0 19

/-- Source extractInstrImm20 (unsigned). -/
def extractInstrImm20 (instr : Nat) : Nat := extractInstrFieldU instr 0 20

/-! ## T64-Util.h: instruction field deposit -/

/-- Source depositInstrField: replace the len-bit field at bitpos of a 32-bit
instruction word by the low bits of value. -/
def depositInstrField (instr : Nat) (bitpos len : Nat) (value : Int) : Nat :=
  let mask := ((2 ^ len - 1) <<< bitpos) % 2 ^ 32
  (instr &&& ((2 ^ 32 - 1) ^^^ mask)) ||| ((pat64 value <<< bitpos) &&& mask)

/-- Source depositInstrBit. -/
def depositInstrBit (instr : Nat) (bitpos : Nat) (value : Bool) : Nat :=
  let mask := (1 <<< bitpos) % 2 ^ 32
  (instr &&& ((2 ^ 32 - 1) ^^^ mask)) |||
    (((if value then 1 else 0) <<< bitpos) &&& mask)

/-- Source depositInstrRegR. -/
def depositInstrRegR (instr : Nat) (regId : Int) : Nat :=
  depositInstrField instr 22 4 regId

/-- Source depositInstrRegB. -/
def depositInstrRegB (instr : Nat) (regId : Int) : Nat :=
  depositInstrField instr 15 4 regId

/-- Source depositInstrRegA. -/
def depositInstrRegA (instr : Nat) (regId : Int) : Nat :=
  depositInstrField instr 9 4 regId

/-! ## T64-Util.h: 64-bit extract, deposit, shift -/

/-- Source extractBit64. -/
def extractBit64 (arg : Int) (bitpos : Nat) : Int :=
  if bitpos > 63 then 0 else ((pat64 arg >>> bitpos) &&& 1 : Nat)

/-- Source extractField64: bits bitpos+len-1..bitpos of arg, zero extended;
0 when the range leaves the word. -/
def extractField64 (arg : Int) (bitpos len : Nat) : Int :=
  if bitpos > 63 then 0
  else if bitpos + len > 64 then 0
  else ((pat64 arg >>> bitpos) &&& (2 ^ len - 1) : Nat)

/-- Source extractSignedField64: the len-bit field at bitpos, sign extended.
The C++ first shifts arithmetically (int64 >>), masks with the unsigned
len-bit mask, and sign extends with a shift pair when len < 64. -/
def extractSignedField64 (arg : Int) (bitpos len : Nat) : Int :=
  let field := pat64 (asrW arg bitpos) &&& (2 ^ len - 1)
  if len < 64 then
    if field < 2 ^ (len - 1) then (field : Int) else (field : Int) - 2 ^ len
  else sval64 field

/-- Source depositField: word with the len-bit field at bitpos replaced by
the low len bits of value. -/
def depositField (word : Int) (bitpos len : Nat) (value : Int) : Int :=
  let mask := ((2 ^ len - 1) <<< bitpos) % 2 ^ 64
  sval64 ((pat64 word &&& ((2 ^ 64 - 1) ^^^ mask)) |||
          ((pat64 value <<< bitpos) &&& mask))

/-- Source shiftRight128: shift the 128-bit quantity hi:lo right; defined for
0 < shift < 64 as (hi << (64-shift)) | (lo >> shift) on unsigned words,
otherwise lo. -/
def shiftRight128 (hi lo : Int) (shift : Int) : Int :=
  if shift = 0 then lo
  else if (shift > 0) && (shift < 64) then
    sval64 (((pat64 hi <<< (64 - shift.toNat)) % 2 ^ 64) |||
            (pat64 lo >>> shift.toNat))
  else lo

/-! ## T64-Util.h: signed overflow predicates -/

/-- Source willAddOverflow. -/
def willAddOverflow (a b : Int) : Bool :=
  if (b > 0) ∧ (a > I64MAX - b) then true
  else if (b < 0) ∧ (a < I64MIN - b) then true
  else false

/-- Source willSubOverflow. -/
def willSubOverflow (a b : Int) : Bool :=
  if (b < 0) ∧ (a > I64MAX + b) then true
  else if (b > 0) ∧ (a < I64MIN + b) then true
  else false

/-- Source willShiftLeftOverflow: conservative range test by shifting left
(with int64 wrap) and arithmetically shifting back. -/
def willShiftLeftOverflow (val : Int) (shift : Int) : Bool :=
  if (shift < 0) || (shift ≥ 63) then true
  else if shift = 0 then false
  else
    let shifted := shlW val shift.toNat
    let recovered := asrW shifted shift.toNat
    recovered != val

/-! ## T64-Util.h: address arithmetic and PSR bits -/

/-- Source addAdrOfs32: 32-bit wrap-around addition in the low half of the
address, the high 32 bits of adr are preserved. -/
def addAdrOfs32 (adr ofs : Int) : Int :=
  let lo := pat64 adr % 2 ^ 32
  let newLo := (lo + pat64 ofs % 2 ^ 32) % 2 ^ 32
  sval64 ((pat64 adr &&& 0xFFFFFFFF00000000) ||| newLo)

/-- Source vAdrRegionId: bits 51..32. -/
def vAdrRegionId (vAdr : Int) : Int := extractField64 vAdr 32 20

/-- Source extractPsrXbit: bit 61 of the PSR. -/
def extractPsrXbit (psr : Int) : Bool := extractBit64 psr 61 != 0

/-! ## Constants from T64-Common.h

The header T64-Common.h that declares the opcode group and family constants,
the control register indices and the register file sizes is not among the
sources; only its users are. The values below are modelled from the spec.

Modelled from the spec: instruction groups ALU=0, MEM=1, BR=2, SYS=3
(spec section 3.2). The opcode family constants are 4-bit values, distinct
per group; the spec (section 4.6.3) fixes the families of each group but not
their numeric codes, so the codes below assign them in the spec listing
order. The disassembler distinguishes CMP_A from CMP_B by instruction bit 26,
so OPC_CMP_A is even and OPC_CMP_B = OPC_CMP_A + 1. No claim below depends
on the particular numeric choice. -/

def OPC_GRP_ALU : Nat := 0
def OPC_GRP_MEM : Nat := 1
def OPC_GRP_BR : Nat := 2
def OPC_GRP_SYS : Nat := 3

def OPC_ADD : Nat := 0
def OPC_SUB : Nat := 1
def OPC_AND : Nat := 2
def OPC_OR : Nat := 3
def OPC_XOR : Nat := 4
def OPC_CMP_A : Nat := 6
def OPC_CMP_B : Nat := 7
def OPC_BITOP : Nat := 8
def OPC_SHAOP : Nat := 9
def OPC_IMMOP : Nat := 10
def OPC_LDO : Nat := 11
def OPC_NOP : Nat := 12

def OPC_LD : Nat := 8
def OPC_ST : Nat := 9
def OPC_LDR : Nat := 10
def OPC_STC : Nat := 11

def OPC_B : Nat := 0
def OPC_BE : Nat := 1
def OPC_BR : Nat := 2
def OPC_BV : Nat := 3
def OPC_BB : Nat := 4
def OPC_CBR : Nat := 5
def OPC_ABR : Nat := 6
def OPC_MBR : Nat := 7

def OPC_MR : Nat := 0
def OPC_LPA : Nat := 1
def OPC_PRB : Nat := 2
def OPC_TLB : Nat := 3
def OPC_CA : Nat := 4
def OPC_MST : Nat := 5
def OPC_RFI : Nat := 6
def OPC_DIAG : Nat := 7
def OPC_TRAP : Nat := 8

/-- Modelled from the spec: 16 general registers (spec section 3.4). -/
def T64_MAX_GREGS : Nat := 16

/-- Modelled from the spec: 16 control registers (spec section 3.4). -/
def T64_MAX_CREGS : Nat := 16

/-- Modelled from the spec and the assembler source: the SAR / SHAMT control
register index. The assembler token table gives the SAR register the value 2
(entry name SAR, val 2 in AsmTokTab), which the EXTR / DEP / DSR parsers test
for; the CPU indexes cRegFile with CTL_REG_SHAMT for the same register. -/
def CTL_REG_SHAMT : Nat := 2

/-- Modelled from the spec: index of the IPSR control register (saved PSR on
trap, spec section 3.4). The numeric index is not in the sources; no claim
depends on its exact value, only on the five trap related indices being
distinct. -/
def CTL_REG_IPSR : Nat := 8

/-- Modelled from the spec: index of the IINSTR control register. -/
def CTL_REG_IINSTR : Nat := 9

/-- Modelled from the spec: index of the IARG_0 control register. -/
def CTL_REG_IARG_0 : Nat := 10

/-- Modelled from the spec: index of the IARG_1 control register. -/
def CTL_REG_IARG_1 : Nat := 11

/-- Modelled from the spec: index of the IVA control register (trap vector
base, spec section 3.4). -/
def CTL_REG_IVA : Nat := 12

/-- Trap codes used by T64-Cpu.cpp; the enum lives in the missing header,
the constructor names mirror the constants used at the throw sites. -/
inductive T64TrapCode where
  | dataTlbMiss
  | instrTlbMiss
  | instrAlignment
  | instrProtection
  | dataAlignment
  | privOperation
  | overflow
  | illegalInstr
  deriving DecidableEq, Repr

/-- Trap packet. Modelled from the spec (section 3.9: trap kind, PSR snapshot
at fault, instruction word, arguments); the field names are the ones the
catch block of T64Cpu::instrExecute reads (trapCode, instrAdr, arg0, arg1)
and the constructor is applied positionally exactly as the throw helpers of
T64-Cpu.cpp call it: T64Trap(code, psrReg, instrReg, adr). -/
structure T64Trap where
  trapCode : T64TrapCode
  instrAdr : Int
  arg0 : Int
  arg1 : Int
  deriving DecidableEq, Repr

/-! ## CPU state and register access (T64-Cpu.cpp) -/

/-- CPU state: the register files are total functions, the accessor routines
below reduce every index exactly as the source does. -/
structure CpuState where
  gRegFile : Nat → Int
  cRegFile : Nat → Int
  psrReg : Int
  instrReg : Nat
  resvReg : Int

/-- State after T64Cpu::reset: all registers cleared. -/
def resetState : CpuState :=
  { gRegFile := fun _ => 0
    cRegFile := fun _ => 0
    psrReg := 0
    instrReg := 0
    resvReg := 0 }

/-- Source T64Cpu::getGeneralReg: index 0 reads as zero, any other index is
reduced mod T64_MAX_GREGS. -/
def getGeneralReg (s : CpuState) (index : Nat) : Int :=
  if index = 0 then 0 else s.gRegFile (index % T64_MAX_GREGS)

/-- Source T64Cpu::setGeneralReg: writes through index 0 are dropped, any
other index is reduced mod T64_MAX_GREGS. -/
def setGeneralReg (s : CpuState) (index : Nat) (val : Int) : CpuState :=
  if index ≠ 0 then
    { s with gRegFile := Function.update s.gRegFile (index % T64_MAX_GREGS) val }
  else s

/-- Source T64Cpu::getControlReg: the index is reduced mod T64_MAX_CREGS. -/
def getControlReg (s : CpuState) (index : Nat) : Int :=
  s.cRegFile (index % T64_MAX_CREGS)

/-- Source T64Cpu::setControlReg: the index is reduced mod T64_MAX_CREGS. -/
def setControlReg (s : CpuState) (index : Nat) (val : Int) : CpuState :=
  { s with cRegFile := Function.update s.cRegFile (index % T64_MAX_CREGS) val }

/-- Source T64Cpu::getRegR. -/
def getRegR (s : CpuState) (instr : Nat) : Int :=
  getGeneralReg s (extractInstrRegR instr)

/-- Source T64Cpu::getRegB. -/
def getRegB (s : CpuState) (instr : Nat) : Int :=
  getGeneralReg s (extractInstrRegB instr)

/-- Source T64Cpu::getRegA. -/
def getRegA (s : CpuState) (instr : Nat) : Int :=
  getGeneralReg s (extractInstrRegA instr)

/-- Source T64Cpu::setRegR. -/
def setRegR (s : CpuState) (instr : Nat) (val : Int) : CpuState :=
  setGeneralReg s (extractInstrRegR instr) val

/-! ## Trap helpers (T64-Cpu.cpp)

Each helper builds the trap packet exactly as the corresponding throw site
does. A handler that raises returns the packet in the error component. -/

def dataTlbMissTrap (s : CpuState) (adr : Int) : T64Trap :=
  ⟨.dataTlbMiss, s.psrReg, (s.instrReg : Int), adr⟩

def instrAlignmentTrap (s : CpuState) (adr : Int) : T64Trap :=
  ⟨.instrAlignment, s.psrReg, (s.instrReg : Int), adr⟩

def privModeOperationTrap (s : CpuState) : T64Trap :=
  ⟨.privOperation, s.psrReg, (s.instrReg : Int), 0⟩

def overFlowTrap (s : CpuState) : T64Trap :=
  ⟨.overflow, s.psrReg, (s.instrReg : Int), 0⟩

def illegalInstrTrap (s : CpuState) : T64Trap :=
  ⟨.illegalInstr, s.psrReg, (s.instrReg : Int), 0⟩

/-- Source T64Cpu::addOverFlowCheck: raise the overflow trap when the signed
addition would overflow. -/
def addOverFlowCheck (s : CpuState) (val1 val2 : Int) : Except T64Trap Unit :=
  if willAddOverflow val1 val2 then .error (overFlowTrap s) else .ok ()

/-- Source T64Cpu::subUnderFlowCheck. -/
def subUnderFlowCheck (s : CpuState) (val1 val2 : Int) : Except T64Trap Unit :=
  if willSubOverflow val1 val2 then .error (overFlowTrap s) else .ok ()

/-- Source T64Cpu::nextInstr: advance the instruction address part of the
PSR by 4 with 32-bit offset arithmetic. -/
def nextInstr (s : CpuState) : CpuState :=
  { s with psrReg := addAdrOfs32 s.psrReg 4 }

/-- Source T64Cpu::evalCond, the compare and conditional branch condition
evaluation. The bit tests of cases 3 and 7 embed the C++ expression
val1 & 0x1 as bit 0 of the two's-complement pattern. -/
def evalCond (cond : Nat) (val1 val2 : Int) : Int :=
  match cond with
  | 0 => if val1 = val2 then 1 else 0
  | 1 => if val1 < val2 then 1 else 0
  | 2 => if val1 > val2 then 1 else 0
  | 3 => if pat64 val1 &&& 1 = 0 then 1 else 0
  | 4 => if val1 ≠ val2 then 1 else 0
  | 5 => if val1 ≤ val2 then 1 else 0
  | 6 => if val1 ≥ val2 then 1 else 0
  | 7 => if pat64 val1 &&& 1 ≠ 1 then 1 else 0
  | _ => 0

/-! ## ALU group instruction handlers (T64-Cpu.cpp)

Every handler mirrors its source routine statement by statement; a raised
trap is the error component of the result and aborts the remainder of the
routine, exactly as the C++ throw does. -/

/-- Source T64Cpu::instrAluAddOp. -/
def instrAluAddOp (s : CpuState) (instr : Nat) : Except T64Trap CpuState := do
  let val1 := getRegB s instr
  let val2 : Int ←
    match extractInstrFieldU instr 19 3 with
    | 0 => pure (getRegA s instr)
    | 1 => pure (extractInstrSignedImm15 instr)
    | _ => .error (illegalInstrTrap s)
  let _ ← addOverFlowCheck s val1 val2
  pure (nextInstr (setRegR s instr (val1 + val2)))

/-- Source T64Cpu::instrAluSubOp (note: the source reads val1 from RegR). -/
def instrAluSubOp (s : CpuState) (instr : Nat) : Except T64Trap CpuState := do
  let val1 := getRegR s instr
  let val2 : Int ←
    match extractInstrFieldU instr 19 3 with
    | 0 => pure (getRegA s instr)
    | 1 => pure (extractInstrSignedImm15 instr)
    | _ => .error (illegalInstrTrap s)
  let _ ← subUnderFlowCheck s val1 val2
  pure (nextInstr (setRegR s instr (val1 - val2)))

/-- Source T64Cpu::instrAluAndOp. -/
def instrAluAndOp (s : CpuState) (instr : Nat) : Except T64Trap CpuState := do
  let val1 := getRegB s instr
  let val2 : Int :=
    if extractInstrBit instr 19 ≠ 0 then getRegA s instr
    else extractInstrSignedImm15 instr
  let val1 := if extractInstrBit instr 20 ≠ 0 then lnotW val1 else val1
  let res := landW val1 val2
  let res := if extractInstrBit instr 21 ≠ 0 then lnotW res else res
  pure (nextInstr (setRegR s instr res))

/-- Source T64Cpu::instrAluOrOp. -/
def instrAluOrOp (s : CpuState) (instr : Nat) : Except T64Trap CpuState := do
  let val1 := getRegB s instr
  let val2 : Int :=
    if extractInstrBit instr 19 ≠ 0 then getRegA s instr
    else extractInstrSignedImm15 instr
  let val1 := if extractInstrBit instr 20 ≠ 0 then lnotW val1 else val1
  let res := lorW val1 val2
  let res := if extractInstrBit instr 21 ≠ 0 then lnotW res else res
  pure (nextInstr (setRegR s instr res))

/-- Source T64Cpu::instrAluXorOp (the C complement option is illegal). -/
def instrAluXorOp (s : CpuState) (instr : Nat) : Except T64Trap CpuState := do
  let val1 := getRegB s instr
  let val2 : Int :=
    if extractInstrBit instr 19 ≠ 0 then getRegA s instr
    else extractInstrSignedImm15 instr
  if extractInstrBit instr 20 ≠ 0 then .error (illegalInstrTrap s)
  else
    let res := lxorW val1 val2
    let res := if extractInstrBit instr 21 ≠ 0 then lnotW res else res
    pure (nextInstr (setRegR s instr res))

/-- Source T64Cpu::instrAluCmpOp: the opcode family selects register versus
immediate operand, the Opt1 field selects the condition. -/
def instrAluCmpOp (s : CpuState) (instr : Nat) : Except T64Trap CpuState := do
  let val1 := getRegB s instr
  let opCode := extractInstrOpCode instr
  let val2 : Int ←
    if opCode = OPC_CMP_A then pure (getRegA s instr)
    else if opCode = OPC_CMP_B then pure (extractInstrSignedImm15 instr)
    else .error (illegalInstrTrap s)
  pure (nextInstr
    (setRegR s instr (evalCond (extractInstrFieldU instr 19 3) val1 val2)))

/-- Source T64Cpu::instrAluBitOp: EXTR (Opt1 0), DEP (Opt1 1), DSR (Opt1 3);
any other Opt1 raises IllegalInstr. -/
def instrAluBitOp (s : CpuState) (instr : Nat) : Except T64Trap CpuState := do
  let s' ←
    match extractInstrFieldU instr 19 3 with
    | 0 =>
      let val := getRegB s instr
      let len := extractInstrFieldU instr 0 6
      let pos : Nat :=
        if extractInstrBit instr 13 ≠ 0 then pat64 (s.cRegFile CTL_REG_SHAMT) &&& 0x3F
        else extractInstrFieldU instr 6 6
      let res :=
        if extractInstrBit instr 12 ≠ 0 then extractSignedField64 val pos len
        else extractField64 val pos len
      pure (setRegR s instr res)
    | 1 =>
      let len := extractInstrFieldU instr 0 6
      let pos : Nat :=
        if extractInstrBit instr 13 ≠ 0 then pat64 (s.cRegFile CTL_REG_SHAMT) &&& 0x3F
        else extractInstrFieldU instr 6 6
      let val1 : Int :=
        if extractInstrBit instr 12 = 0 then getRegR s instr else 0
      let val2 : Int :=
        if extractInstrBit instr 14 ≠ 0 then (extractInstrFieldU instr 15 4 : Int)
        else getRegB s instr
      pure (setRegR s instr (depositField val1 pos len val2))
    | 3 =>
      let val1 := getRegB s instr
      let val2 := getRegA s instr
      let shamt : Nat :=
        if extractInstrBit instr 13 ≠ 0 then pat64 (s.cRegFile CTL_REG_SHAMT) &&& 0x3F
        else extractInstrFieldU instr 0 6
      pure (setRegR s instr (shiftRight128 val1 val2 (shamt : Int)))
    | _ => .error (illegalInstrTrap s)
  pure (nextInstr s')

/-- Source T64Cpu::instrAluShaOP. The final register write uses the CPU
instruction register field instrReg, as the source does. -/
def instrAluShaOP (s : CpuState) (instr : Nat) : Except T64Trap CpuState := do
  let val1 := getRegB s instr
  let shamt := extractInstrFieldU instr 13 2
  let opt := extractInstrFieldU instr 19 3
  let val2 : Int ←
    match opt with
    | 0 | 2 => pure (getRegA s instr)
    | 1 | 3 => pure (extractInstrSignedImm13 instr)
    | _ => .error (illegalInstrTrap s)
  let res : Int ←
    if (opt = 0) || (opt = 1) then
      if willShiftLeftOverflow val1 (shamt : Int) then .error (overFlowTrap s)
      else pure (shlW val1 shamt)
    else if (opt = 2) || (opt = 3) then pure (asrW val1 shamt)
    else pure 0
  let _ ← addOverFlowCheck s res val2
  pure (nextInstr (setRegR s s.instrReg (res + val2)))

/-- Source T64Cpu::instrAluImmOp: sub-mode in bits 21..20. In sub-modes 2
and 3 the source calls depositField but discards its result, so the register
value res is left unchanged there; the embedding reproduces this. -/
def instrAluImmOp (s : CpuState) (instr : Nat) : Except T64Trap CpuState := do
  let val : Int := (extractInstrImm20 instr : Int)
  let res := getRegR s instr
  let res : Int :=
    match extractInstrFieldU instr 20 2 with
    | 0 => addAdrOfs32 res val
    | 1 => shlW val 12
    | 2 => let _ := depositField res 32 20 val; res
    | 3 => let _ := depositField res 52 12 val; res
    | _ => res
  pure (nextInstr (setRegR s instr res))

/-- Source T64Cpu::instrAluLdoOp. -/
def instrAluLdoOp (s : CpuState) (instr : Nat) : Except T64Trap CpuState := do
  let base := getRegB s instr
  let ofs := extractInstrSignedScaledImm13 instr
  pure (nextInstr (setRegR s instr (addAdrOfs32 base ofs)))

/-- Source T64Cpu::instrBrCbrOp: compare RegR with RegB under the Opt1
condition; when taken the PSR advances by the signed Imm15 field (the source
adds the immediate without any scaling), otherwise by 4. -/
def instrBrCbrOp (s : CpuState) (instr : Nat) : Except T64Trap CpuState := do
  let val1 := getRegR s instr
  let val2 := getRegB s instr
  if evalCond (extractInstrFieldU instr 19 3) val1 val2 ≠ 0 then
    pure { s with psrReg := addAdrOfs32 s.psrReg (extractInstrSignedImm15 instr) }
  else pure (nextInstr s)

/-! ## Execute dispatch (T64Cpu::instrExecute) -/

/-- Tags naming the per-family handler routines of T64-Cpu.cpp. -/
inductive Handler where
  | aluAdd | memAdd | aluSub | memSub | aluAnd | memAnd | aluOr | memOr
  | aluXor | memXor | aluCmp | memCmp | aluBit | aluSha | aluImm | aluLdo
  | memLd | memLdr | memSt | memStc
  | brB | brBe | brBr | brBb | brAbr | brCbr | brMbr
  | sysMr | sysLpa | sysPrb | sysTlb | sysCa | sysMst | sysRfi | sysDiag
  | sysTrap
  | illegal
  deriving DecidableEq, Repr

/-- The handler selection of T64Cpu::instrExecute. The source switches on
extractInstrOpCode( instr ) - the 4-bit opcode family field alone - while its
case labels are built as group * 16 + family. The chain below lists every
case label in source order. -/
def instrExecuteDispatch (instr : Nat) : Handler :=
  let opKey := extractInstrOpCode instr
  if opKey = OPC_GRP_ALU * 16 + OPC_ADD then .aluAdd
  else if opKey = OPC_GRP_MEM * 16 + OPC_ADD then .memAdd
  else if opKey = OPC_GRP_ALU * 16 + OPC_SUB then .aluSub
  else if opKey = OPC_GRP_MEM * 16 + OPC_SUB then .memSub
  else if opKey = OPC_GRP_ALU * 16 + OPC_AND then .aluAnd
  else if opKey = OPC_GRP_MEM * 16 + OPC_AND then .memAnd
  else if opKey = OPC_GRP_ALU * 16 + OPC_OR then .aluOr
  else if opKey = OPC_GRP_MEM * 16 + OPC_OR then .memOr
  else if opKey = OPC_GRP_ALU * 16 + OPC_XOR then .aluXor
  else if opKey = OPC_GRP_MEM * 16 + OPC_XOR then .memXor
  else if opKey = OPC_GRP_ALU * 16 + OPC_CMP_A then .aluCmp
  else if opKey = OPC_GRP_ALU * 16 + OPC_CMP_B then .aluCmp
  else if opKey = OPC_GRP_MEM * 16 + OPC_CMP_A then .memCmp
  else if opKey = OPC_GRP_MEM * 16 + OPC_CMP_B then .memCmp
  else if opKey = OPC_GRP_ALU * 16 + OPC_BITOP then .aluBit
  else if opKey = OPC_GRP_ALU * 16 + OPC_SHAOP then .aluSha
  else if opKey = OPC_GRP_ALU * 16 + OPC_IMMOP then .aluImm
  else if opKey = OPC_GRP_ALU * 16 + OPC_LDO then .aluLdo
  else if opKey = OPC_GRP_MEM * 16 + OPC_LD then .memLd
  else if opKey = OPC_GRP_MEM * 16 + OPC_LDR then .memLdr
  else if opKey = OPC_GRP_MEM * 16 + OPC_ST then .memSt
  else if opKey = OPC_GRP_MEM * 16 + OPC_STC then .memStc
  else if opKey = OPC_GRP_BR * 16 + OPC_B then .brB
  else if opKey = OPC_GRP_BR * 16 + OPC_BE then .brBe
  else if opKey = OPC_GRP_BR * 16 + OPC_BR then .brBr
  else if opKey = OPC_GRP_BR * 16 + OPC_BB then .brBb
  else if opKey = OPC_GRP_BR * 16 + OPC_ABR then .brAbr
  else if opKey = OPC_GRP_BR * 16 + OPC_CBR then .brCbr
  else if opKey = OPC_GRP_BR * 16 + OPC_MBR then .brMbr
  else if opKey = OPC_GRP_SYS * 16 + OPC_MR then .sysMr
  else if opKey = OPC_GRP_SYS * 16 + OPC_LPA then .sysLpa
  else if opKey = OPC_GRP_SYS * 16 + OPC_PRB then .sysPrb
  else if opKey = OPC_GRP_SYS * 16 + OPC_TLB then .sysTlb
  else if opKey = OPC_GRP_SYS * 16 + OPC_CA then .sysCa
  else if opKey = OPC_GRP_SYS * 16 + OPC_MST then .sysMst
  else if opKey = OPC_GRP_SYS * 16 + OPC_RFI then .sysRfi
  else if opKey = OPC_GRP_SYS * 16 + OPC_DIAG then .sysDiag
  else if opKey = OPC_GRP_SYS * 16 + OPC_TRAP then .sysTrap
  else .illegal

/-- The handler selection the spec describes (section 4.6.2): compute
opKey = group * 16 + opcode and switch into the per-family handler. This is
the comparison definition for claim C1; it follows the spec wording, with
the same case labels as the source switch. -/
def specOpKeyDispatch (instr : Nat) : Handler :=
  let opKey := extractInstrOpGroup instr * 16 + extractInstrOpCode instr
  if opKey = OPC_GRP_ALU * 16 + OPC_ADD then .aluAdd
  else if opKey = OPC_GRP_MEM * 16 + OPC_ADD then .memAdd
  else if opKey = OPC_GRP_ALU * 16 + OPC_SUB then .aluSub
  else if opKey = OPC_GRP_MEM * 16 + OPC_SUB then .memSub
  else if opKey = OPC_GRP_ALU * 16 + OPC_AND then .aluAnd
  else if opKey = OPC_GRP_MEM * 16 + OPC_AND then .memAnd
  else if opKey = OPC_GRP_ALU * 16 + OPC_OR then .aluOr
  else if opKey = OPC_GRP_MEM * 16 + OPC_OR then .memOr
  else if opKey = OPC_GRP_ALU * 16 + OPC_XOR then .aluXor
  else if opKey = OPC_GRP_MEM * 16 + OPC_XOR then .memXor
  else if opKey = OPC_GRP_ALU * 16 + OPC_CMP_A then .aluCmp
  else if opKey = OPC_GRP_ALU * 16 + OPC_CMP_B then .aluCmp
  else if opKey = OPC_GRP_MEM * 16 + OPC_CMP_A then .memCmp
  else if opKey = OPC_GRP_MEM * 16 + OPC_CMP_B then .memCmp
  else if opKey = OPC_GRP_ALU * 16 + OPC_BITOP then .aluBit
  else if opKey = OPC_GRP_ALU * 16 + OPC_SHAOP then .aluSha
  else if opKey = OPC_GRP_ALU * 16 + OPC_IMMOP then .aluImm
  else if opKey = OPC_GRP_ALU * 16 + OPC_LDO then .aluLdo
  else if opKey = OPC_GRP_MEM * 16 + OPC_LD then .memLd
  else if opKey = OPC_GRP_MEM * 16 + OPC_LDR then .memLdr
  else if opKey = OPC_GRP_MEM * 16 + OPC_ST then .memSt
  else if opKey = OPC_GRP_MEM * 16 + OPC_STC then .memStc
  else if opKey = OPC_GRP_BR * 16 + OPC_B then .brB
  else if opKey = OPC_GRP_BR * 16 + OPC_BE then .brBe
  else if opKey = OPC_GRP_BR * 16 + OPC_BR then .brBr
  else if opKey = OPC_GRP_BR * 16 + OPC_BB then .brBb
  else if opKey = OPC_GRP_BR * 16 + OPC_ABR then .brAbr
  else if opKey = OPC_GRP_BR * 16 + OPC_CBR then .brCbr
  else if opKey = OPC_GRP_BR * 16 + OPC_MBR then .brMbr
  else if opKey = OPC_GRP_SYS * 16 + OPC_MR then .sysMr
  else if opKey = OPC_GRP_SYS * 16 + OPC_LPA then .sysLpa
  else if opKey = OPC_GRP_SYS * 16 + OPC_PRB then .sysPrb
  else if opKey = OPC_GRP_SYS * 16 + OPC_TLB then .sysTlb
  else if opKey = OPC_GRP_SYS * 16 + OPC_CA then .sysCa
  else if opKey = OPC_GRP_SYS * 16 + OPC_MST then .sysMst
  else if opKey = OPC_GRP_SYS * 16 + OPC_RFI then .sysRfi
  else if opKey = OPC_GRP_SYS * 16 + OPC_DIAG then .sysDiag
  else if opKey = OPC_GRP_SYS * 16 + OPC_TRAP then .sysTrap
  else .illegal

/-- The try body of T64Cpu::instrExecute. The scrutinee of the source switch
is extractInstrOpCode( instr ), a value below 16, so only the case labels of
the ALU group (group constant 0) are reachable; the cases whose labels are
16 or larger can never match and are represented by the default, exactly as
the compiled switch behaves. instrExecuteDispatch above records the full
label chain. -/
def instrExecuteE (s : CpuState) (instr : Nat) : Except T64Trap CpuState :=
  let opKey := extractInstrOpCode instr
  if opKey = OPC_GRP_ALU * 16 + OPC_ADD then instrAluAddOp s instr
  else if opKey = OPC_GRP_ALU * 16 + OPC_SUB then instrAluSubOp s instr
  else if opKey = OPC_GRP_ALU * 16 + OPC_AND then instrAluAndOp s instr
  else if opKey = OPC_GRP_ALU * 16 + OPC_OR then instrAluOrOp s instr
  else if opKey = OPC_GRP_ALU * 16 + OPC_XOR then instrAluXorOp s instr
  else if opKey = OPC_GRP_ALU * 16 + OPC_CMP_A then instrAluCmpOp s instr
  else if opKey = OPC_GRP_ALU * 16 + OPC_CMP_B then instrAluCmpOp s instr
  else if opKey = OPC_GRP_ALU * 16 + OPC_BITOP then instrAluBitOp s instr
  else if opKey = OPC_GRP_ALU * 16 + OPC_SHAOP then instrAluShaOP s instr
  else if opKey = OPC_GRP_ALU * 16 + OPC_IMMOP then instrAluImmOp s instr
  else if opKey = OPC_GRP_ALU * 16 + OPC_LDO then instrAluLdoOp s instr
  else .error (illegalInstrTrap s)

/-- The catch block of T64Cpu::instrExecute: store the trap packet into the
control registers, in source order IPSR := instrAdr, IINSTR := arg0,
IARG_0 := arg0, IARG_1 := arg1. The source does not assign PSR (the line
is only a comment: PSR to the IVA content), so psrReg is untouched. -/
def trapCatchUpdate (s : CpuState) (t : T64Trap) : CpuState :=
  let c := Function.update s.cRegFile CTL_REG_IPSR t.instrAdr
  let c := Function.update c CTL_REG_IINSTR t.arg0
  let c := Function.update c CTL_REG_IARG_0 t.arg0
  let c := Function.update c CTL_REG_IARG_1 t.arg1
  { s with cRegFile := c }

/-- Source T64Cpu::instrExecute: run the dispatched handler and deliver any
raised trap at the catch boundary. -/
def instrExecute (s : CpuState) (instr : Nat) : CpuState :=
  match instrExecuteE s instr with
  | .ok s' => s'
  | .error t => trapCatchUpdate s t

/-- Initial state of the overflow trap scenario used for claim C3: the PSR
holds the instruction address 0x100, R1 holds INT64_MAX, the IVA control
register holds 0x4000, and the instruction register holds the fetched word
ADD R2, R1, 1 as T64Cpu::step would have set it. -/
def c3State : CpuState :=
  { gRegFile := Function.update (fun _ => 0) 1 I64MAX
    cRegFile := Function.update (fun _ => 0) CTL_REG_IVA 0x4000
    psrReg := 0x100
    instrReg := 0x00888001
    resvReg := 0 }

/-- Initial state of the branch scenario of claim C8: the PSR holds the
instruction address 0x100, R1 and R2 both hold 3, and the instruction
register holds the fetched word the assembler produced for the line
CBR.EQ R1, R2, 0x20. -/
def c8State : CpuState :=
  { gRegFile := Function.update (Function.update (fun _ => 0) 1 3) 2 3
    cRegFile := fun _ => 0
    psrReg := 0x100
    instrReg := 0x94410008
    resvReg := 0 }

/-- The upshifted tokenizer line for the input CBR.EQ R1, R2, 0x20 of the
claim C8 scenario. -/
def c8Line : List Char :=
  ['C', 'B', 'R', '.', 'E', 'Q', ' ', 'R', '1', ',', ' ', 'R', '2', ',', ' ',
    '0', 'X', '2', '0']

/-- The upshifted tokenizer line for the input ADD R1,R2,~3 of the claim C7
counterexample. -/
def c7Line : List Char :=
  ['A', 'D', 'D', ' ', 'R', '1', ',', 'R', '2', ',', '~', '3']

/-- Shorthand for the source operand of the ALU ADD instruction: the RegA
value in register form (Opt1 = 0), the sign-extended Imm15 in immediate form
(Opt1 = 1). -/
def aluAddSrc (s : CpuState) (w : Nat) : Int :=
  if extractInstrFieldU w 19 3 = 0 then getRegA s w
  else extractInstrSignedImm15 w

/-! # The one-line assembler (T64-InlineAsm.cpp)

The assembler mutates a handful of globals (the tokenizer state and the
instruction word a caller-provided pointer designates) and signals errors by
throwing a typed enumeration value. The embedding threads the globals and
the word under construction through a state monad over an Except.

The C++ has unbounded recursion (parseFactor and parseExpr call each other;
several loops iterate on tokens), so the recursive functions carry an
explicit recursion-depth budget. Exhausting the budget yields the extra
error value AsmErr.outOfFuel, which does not correspond to any source error
code: a computation that ends in outOfFuel for every budget models a C++
execution that never returns. -/

namespace Asm

/-- The assembler error enumeration ErrId of T64-InlineAsm.cpp, plus the
outOfFuel modelling artifact. -/
inductive AsmErr where
  | extraTokenInStr
  | invalidCharInIdent
  | invalidExpr
  | invalidNum
  | invalidOpCode
  | invalidInstrMode
  | invalidOfs
  | invalidInstrOpt
  | expectedClosingQuote
  | expectedNumeric
  | expectedComma
  | expectedLparen
  | expectedRparen
  | expectedStr
  | expectedOpCode
  | expectedInstrOpt
  | expectedDiagOp
  | expectedGeneralReg
  | expectedPosArg
  | expectedLenArg
  | bitRangeExceeds
  | expectedBrOfs
  | expectedControlReg
  | expectedPrbArg
  | unexpectedEos
  | exprTypeMatch
  | numericOverflow
  | immValRange
  | duplicateInstrOpt
  | outOfFuel
  deriving DecidableEq, Repr

/-- The numeric codes of the ErrId enumeration (NO_ERR is 0; the modelling
artifact outOfFuel gets the otherwise unused code 99). -/
def asmErrCode : AsmErr → Nat
  | .extraTokenInStr => 10
  | .invalidCharInIdent => 11
  | .invalidExpr => 12
  | .invalidNum => 13
  | .invalidOpCode => 14
  | .invalidInstrMode => 15
  | .invalidOfs => 16
  | .invalidInstrOpt => 17
  | .expectedClosingQuote => 20
  | .expectedNumeric => 21
  | .expectedComma => 22
  | .expectedLparen => 23
  | .expectedRparen => 24
  | .expectedStr => 25
  | .expectedOpCode => 26
  | .expectedInstrOpt => 27
  | .expectedDiagOp => 28
  | .expectedGeneralReg => 29
  | .expectedPosArg => 30
  | .expectedLenArg => 31
  | .bitRangeExceeds => 32
  | .expectedBrOfs => 33
  | .expectedControlReg => 34
  | .expectedPrbArg => 35
  | .unexpectedEos => 36
  | .exprTypeMatch => 40
  | .numericOverflow => 41
  | .immValRange => 42
  | .duplicateInstrOpt => 43
  | .outOfFuel => 99

/-! Token type and token id constants (enums TokTypeId and TokId). -/

def TYP_NIL : Nat := 0
def TYP_SYM : Nat := 1
def TYP_IDENT : Nat := 2
def TYP_NUM : Nat := 4
def TYP_STR : Nat := 5
def TYP_OP_CODE : Nat := 6
def TYP_GREG : Nat := 7
def TYP_CREG : Nat := 8

def TOK_NIL : Nat := 0
def TOK_ERR : Nat := 1
def TOK_EOS : Nat := 2
def TOK_COMMA : Nat := 3
def TOK_PERIOD : Nat := 4
def TOK_LPAREN : Nat := 5
def TOK_RPAREN : Nat := 6
def TOK_PLUS : Nat := 8
def TOK_MINUS : Nat := 9
def TOK_MULT : Nat := 10
def TOK_DIV : Nat := 11
def TOK_MOD : Nat := 12
def TOK_REM : Nat := 13
def TOK_NEG : Nat := 14
def TOK_AND : Nat := 15
def TOK_OR : Nat := 16
def TOK_XOR : Nat := 17
def TOK_IDENT : Nat := 24
def TOK_NUM : Nat := 25
def TOK_STR : Nat := 26

def TOK_GR_0 : Nat := 101
def TOK_GR_1 : Nat := 102
def TOK_GR_2 : Nat := 103
def TOK_GR_3 : Nat := 104
def TOK_GR_4 : Nat := 105
def TOK_GR_5 : Nat := 106
def TOK_GR_6 : Nat := 107
def TOK_GR_7 : Nat := 108
def TOK_GR_8 : Nat := 109
def TOK_GR_9 : Nat := 110
def TOK_GR_10 : Nat := 111
def TOK_GR_11 : Nat := 112
def TOK_GR_12 : Nat := 113
def TOK_GR_13 : Nat := 114
def TOK_GR_14 : Nat := 115
def TOK_GR_15 : Nat := 116

def TOK_CR_0 : Nat := 121
def TOK_CR_1 : Nat := 122
def TOK_CR_2 : Nat := 123
def TOK_CR_3 : Nat := 124
def TOK_CR_4 : Nat := 125
def TOK_CR_5 : Nat := 126
def TOK_CR_6 : Nat := 127
def TOK_CR_7 : Nat := 128
def TOK_CR_8 : Nat := 129
def TOK_CR_9 : Nat := 130
def TOK_CR_10 : Nat := 131
def TOK_CR_11 : Nat := 132
def TOK_CR_12 : Nat := 133
def TOK_CR_13 : Nat := 134
def TOK_CR_14 : Nat := 136
def TOK_CR_15 : Nat := 137

def TOK_OP_NOP : Nat := 300
def TOK_OP_AND : Nat := 301
def TOK_OP_OR : Nat := 302
def TOK_OP_XOR : Nat := 303
def TOK_OP_ADD : Nat := 304
def TOK_OP_SUB : Nat := 305
def TOK_OP_CMP : Nat := 306
def TOK_OP_EXTR : Nat := 311
def TOK_OP_DEP : Nat := 312
def TOK_OP_DSR : Nat := 313
def TOK_OP_SHL1A : Nat := 314
def TOK_OP_SHL2A : Nat := 315
def TOK_OP_SHL3A : Nat := 316
def TOK_OP_SHR1A : Nat := 317
def TOK_OP_SHR2A : Nat := 318
def TOK_OP_SHR3A : Nat := 319
def TOK_OP_LDIL : Nat := 331
def TOK_OP_ADDIL : Nat := 332
def TOK_OP_LDO : Nat := 333
def TOK_OP_LD : Nat := 334
def TOK_OP_LDR : Nat := 335
def TOK_OP_ST : Nat := 337
def TOK_OP_STC : Nat := 338
def TOK_OP_B : Nat := 341
def TOK_OP_BR : Nat := 342
def TOK_OP_BV : Nat := 343
def TOK_OP_BE : Nat := 344
def TOK_OP_BB : Nat := 345
def TOK_OP_CBR : Nat := 346
def TOK_OP_MBR : Nat := 347
def TOK_OP_ABR : Nat := 348
def TOK_OP_MFCR : Nat := 351
def TOK_OP_MTCR : Nat := 352
def TOK_OP_MFIA : Nat := 353
def TOK_OP_RSM : Nat := 354
def TOK_OP_SSM : Nat := 355
def TOK_OP_LPA : Nat := 356
def TOK_OP_PRB : Nat := 357
def TOK_OP_IITLB : Nat := 361
def TOK_OP_IDTLB : Nat := 362
def TOK_OP_PITLB : Nat := 363
def TOK_OP_PDTLB : Nat := 364
def TOK_OP_PICA : Nat := 365
def TOK_OP_PDCA : Nat := 366
def TOK_OP_FICA : Nat := 367
def TOK_OP_FDCA : Nat := 368
def TOK_OP_RFI : Nat := 371
def TOK_OP_DIAG : Nat := 372
def TOK_OP_TRAP : Nat := 373

/-! Instruction template constants (enum InstrTemplate): group bits at 31,30,
opcode family bits at 29..26, mode bits at 21..19. -/

def OPG_ALU : Nat := OPC_GRP_ALU <<< 30
def OPG_MEM : Nat := OPC_GRP_MEM <<< 30
def OPG_BR : Nat := OPC_GRP_BR <<< 30
def OPG_SYS : Nat := OPC_GRP_SYS <<< 30

def OPF_ADD : Nat := OPC_ADD <<< 26
def OPF_SUB : Nat := OPC_SUB <<< 26
def OPF_AND : Nat := OPC_AND <<< 26
def OPF_OR : Nat := OPC_OR <<< 26
def OPF_XOR : Nat := OPC_XOR <<< 26
def OPF_CMP_A : Nat := OPC_CMP_A <<< 26
def OPF_CMP_B : Nat := OPC_CMP_B <<< 26
def OPF_BITOP : Nat := OPC_BITOP <<< 26
def OPF_SHAOP : Nat := OPC_SHAOP <<< 26
def OPF_IMMOP : Nat := OPC_IMMOP <<< 26
def OPF_LDO : Nat := OPC_LDO <<< 26
def OPF_LD : Nat := OPC_LD <<< 26
def OPF_ST : Nat := OPC_ST <<< 26
def OPF_LDR : Nat := OPC_LDR <<< 26
def OPF_STC : Nat := OPC_STC <<< 26
def OPF_B : Nat := OPC_B <<< 26
def OPF_BE : Nat := OPC_BE <<< 26
def OPF_BR : Nat := OPC_BR <<< 26
def OPF_BV : Nat := OPC_BV <<< 26
def OPF_BB : Nat := OPC_BB <<< 26
def OPF_CBR : Nat := OPC_CBR <<< 26
def OPF_MBR : Nat := OPC_MBR <<< 26
def OPF_ABR : Nat := OPC_ABR <<< 26
def OPF_MR : Nat := OPC_MR <<< 26
def OPF_LPA : Nat := OPC_LPA <<< 26
def OPF_PRB : Nat := OPC_PRB <<< 26
def OPF_TLB : Nat := OPC_TLB <<< 26
def OPF_CA : Nat := OPC_CA <<< 26
def OPF_MST : Nat := OPC_MST <<< 26
def OPF_RFI : Nat := OPC_RFI <<< 26
def OPF_TRAP : Nat := OPC_TRAP <<< 26
def OPF_DIAG : Nat := OPC_DIAG <<< 26
def OPF_NOP : Nat := OPC_NOP <<< 26

def OPM_FLD_0 : Nat := 0 <<< 19
def OPM_FLD_1 : Nat := 1 <<< 19
def OPM_FLD_2 : Nat := 2 <<< 19
def OPM_FLD_3 : Nat := 3 <<< 19

/-! Instruction flags (enum InstrFlags). -/

def IF_NIL : Nat := 0
def IF_A : Nat := 1 <<< 1
def IF_B : Nat := 1 <<< 2
def IF_C : Nat := 1 <<< 3
def IF_D : Nat := 1 <<< 4
def IF_F : Nat := 1 <<< 5
def IF_G : Nat := 1 <<< 6
def IF_H : Nat := 1 <<< 7
def IF_I : Nat := 1 <<< 8
def IF_L : Nat := 1 <<< 9
def IF_M : Nat := 1 <<< 11
def IF_N : Nat := 1 <<< 12
def IF_Q : Nat := 1 <<< 13
def IF_R : Nat := 1 <<< 14
def IF_S : Nat := 1 <<< 15
def IF_T : Nat := 1 <<< 16
def IF_U : Nat := 1 <<< 17
def IF_W : Nat := 1 <<< 18
def IF_Z : Nat := 1 <<< 19
def IF_EQ : Nat := 1 <<< 24
def IF_LT : Nat := 1 <<< 25
def IF_NE : Nat := 1 <<< 26
def IF_LE : Nat := 1 <<< 27
def IF_GT : Nat := 1 <<< 28
def IF_GE : Nat := 1 <<< 29
def IF_EV : Nat := 1 <<< 30
def IF_OD : Nat := 1 <<< 31

def IM_NIL : Nat := 0
def IM_ADD_OP : Nat := IF_B ||| IF_H ||| IF_W ||| IF_D
def IM_SUB_OP : Nat := IF_B ||| IF_H ||| IF_W ||| IF_D
def IM_AND_OP : Nat := IF_B ||| IF_H ||| IF_W ||| IF_D ||| IF_N ||| IF_C
def IM_OR_OP : Nat := IF_B ||| IF_H ||| IF_W ||| IF_D ||| IF_N ||| IF_C
def IM_XOR_OP : Nat := IF_B ||| IF_H ||| IF_W ||| IF_D ||| IF_N
def IM_CMP_OP : Nat :=
  IF_B ||| IF_H ||| IF_W ||| IF_D ||| IF_EQ ||| IF_NE ||| IF_LT ||| IF_LE |||
    IF_GT ||| IF_GE
def IM_EXTR_OP : Nat := IF_S
def IM_DEP_OP : Nat := IF_Z ||| IF_I
def IM_SHLxA_OP : Nat := IF_I
def IM_SHRxA_OP : Nat := IF_I
def IM_LDI_OP : Nat := IF_L ||| IF_M ||| IF_U
def IM_LDO_OP : Nat := IF_B ||| IF_H ||| IF_W ||| IF_D
def IM_LD_OP : Nat := IF_B ||| IF_H ||| IF_W ||| IF_D ||| IF_U
def IM_ST_OP : Nat := IF_B ||| IF_H ||| IF_W ||| IF_D
def IM_LDR_OP : Nat := IF_D ||| IF_U
def IM_STC_OP : Nat := IF_D
def IM_B_OP : Nat := IF_G
def IM_BR_OP : Nat := IF_W ||| IF_D ||| IF_Q
def IM_BV_OP : Nat := IF_W ||| IF_D ||| IF_Q
def IM_BB_OP : Nat := IF_T ||| IF_F
def IM_CBR_OP : Nat := IF_EQ ||| IF_LT ||| IF_NE ||| IF_LE ||| IF_GT ||| IF_GE
def IM_MBR_OP : Nat :=
  IF_EQ ||| IF_LT ||| IF_NE ||| IF_LE ||| IF_GT ||| IF_GE ||| IF_EV ||| IF_OD
def IM_ABR_OP : Nat :=
  IF_EQ ||| IF_LT ||| IF_NE ||| IF_LE ||| IF_GT ||| IF_GE ||| IF_EV ||| IF_OD
def IM_MFIA_OP : Nat := IF_A ||| IF_L ||| IF_R
def IM_ITLB_OP : Nat := IF_I ||| IF_D
def IM_PTLB_OP : Nat := IF_I ||| IF_D
def IM_PCA_OP : Nat := IF_I ||| IF_D

/-- Tokens: name, type, id and value (struct Token). -/
structure Token where
  name : String
  typ : Nat
  tid : Nat
  val : Int

def nilToken : Token := { name := "", typ := TYP_NIL, tid := TOK_NIL, val := 0 }

/-- The global token table AsmTokTab, entry for entry; the table is
split into slices only to keep elaboration cheap, the concatenation below
preserves the source order. -/
def asmTokTabPart0 : List Token := [
  { name := "R0", typ := TYP_GREG, tid := TOK_GR_0, val := 0 },
  { name := "R1", typ := TYP_GREG, tid := TOK_GR_1, val := 1 },
  { name := "R2", typ := TYP_GREG, tid := TOK_GR_2, val := 2 },
  { name := "R3", typ := TYP_GREG, tid := TOK_GR_3, val := 3 },
  { name := "R4", typ := TYP_GREG, tid := TOK_GR_4, val := 4 },
  { name := "R5", typ := TYP_GREG, tid := TOK_GR_5, val := 5 },
  { name := "R6", typ := TYP_GREG, tid := TOK_GR_6, val := 6 },
  { name := "R7", typ := TYP_GREG, tid := TOK_GR_7, val := 7 },
  { name := "R8", typ := TYP_GREG, tid := TOK_GR_8, val := 8 },
  { name := "R9", typ := TYP_GREG, tid := TOK_GR_9, val := 9 },
  { name := "R10", typ := TYP_GREG, tid := TOK_GR_10, val := 10 },
  { name := "R11", typ := TYP_GREG, tid := TOK_GR_11, val := 11 },
  { name := "R12", typ := TYP_GREG, tid := TOK_GR_12, val := 12 },
  { name := "R13", typ := TYP_GREG, tid := TOK_GR_13, val := 13 },
  { name := "R14", typ := TYP_GREG, tid := TOK_GR_14, val := 14 },
  { name := "R15", typ := TYP_GREG, tid := TOK_GR_15, val := 15 }]

def asmTokTabPart1 : List Token := [
  { name := "C0", typ := TYP_CREG, tid := TOK_CR_0, val := 0 },
  { name := "C1", typ := TYP_CREG, tid := TOK_CR_1, val := 1 },
  { name := "C2", typ := TYP_CREG, tid := TOK_CR_2, val := 2 },
  { name := "C3", typ := TYP_CREG, tid := TOK_CR_3, val := 3 },
  { name := "C4", typ := TYP_CREG, tid := TOK_CR_4, val := 4 },
  { name := "C5", typ := TYP_CREG, tid := TOK_CR_5, val := 5 },
  { name := "C6", typ := TYP_CREG, tid := TOK_CR_6, val := 6 },
  { name := "C7", typ := TYP_CREG, tid := TOK_CR_7, val := 7 },
  { name := "C8", typ := TYP_CREG, tid := TOK_CR_8, val := 8 },
  { name := "C9", typ := TYP_CREG, tid := TOK_CR_9, val := 9 },
  { name := "C10", typ := TYP_CREG, tid := TOK_CR_10, val := 10 },
  { name := "C11", typ := TYP_CREG, tid := TOK_CR_11, val := 11 },
  { name := "C12", typ := TYP_CREG, tid := TOK_CR_12, val := 12 },
  { name := "C13", typ := TYP_CREG, tid := TOK_CR_13, val := 13 },
  { name := "C14", typ := TYP_CREG, tid := TOK_CR_14, val := 14 },
  { name := "C15", typ := TYP_CREG, tid := TOK_CR_15, val := 15 }]

def asmTokTabPart2 : List Token := [
  { name := "T0", typ := TYP_GREG, tid := TOK_GR_1, val := 1 },
  { name := "T1", typ := TYP_GREG, tid := TOK_GR_2, val := 2 },
  { name := "T2", typ := TYP_GREG, tid := TOK_GR_3, val := 3 },
  { name := "T3", typ := TYP_GREG, tid := TOK_GR_4, val := 4 },
  { name := "T4", typ := TYP_GREG, tid := TOK_GR_5, val := 5 },
  { name := "T5", typ := TYP_GREG, tid := TOK_GR_6, val := 6 },
  { name := "T6", typ := TYP_GREG, tid := TOK_GR_7, val := 7 },
  { name := "ARG3", typ := TYP_GREG, tid := TOK_GR_8, val := 8 },
  { name := "ARG2", typ := TYP_GREG, tid := TOK_GR_9, val := 9 },
  { name := "ARG1", typ := TYP_GREG, tid := TOK_GR_10, val := 10 },
  { name := "ARG0", typ := TYP_GREG, tid := TOK_GR_11, val := 11 },
  { name := "RET3", typ := TYP_GREG, tid := TOK_GR_8, val := 8 },
  { name := "RET2", typ := TYP_GREG, tid := TOK_GR_9, val := 9 },
  { name := "RET1", typ := TYP_GREG, tid := TOK_GR_10, val := 10 },
  { name := "RET0", typ := TYP_GREG, tid := TOK_GR_11, val := 11 },
  { name := "DP", typ := TYP_GREG, tid := TOK_GR_13, val := 13 }]

def asmTokTabPart3 : List Token := [
  { name := "RL", typ := TYP_GREG, tid := TOK_GR_14, val := 14 },
  { name := "SP", typ := TYP_GREG, tid := TOK_GR_15, val := 15 },
  { name := "SAR", typ := TYP_CREG, tid := TOK_CR_4, val := 2 },
  { name := "ADD", typ := TYP_OP_CODE, tid := TOK_OP_ADD,
    val := (OPG_ALU ||| OPF_ADD ||| OPM_FLD_0 : Nat) },
  { name := "SUB", typ := TYP_OP_CODE, tid := TOK_OP_SUB,
    val := (OPG_ALU ||| OPF_SUB ||| OPM_FLD_0 : Nat) },
  { name := "AND", typ := TYP_OP_CODE, tid := TOK_OP_AND,
    val := (OPG_ALU ||| OPF_AND ||| OPM_FLD_0 : Nat) },
  { name := "OR", typ := TYP_OP_CODE, tid := TOK_OP_OR,
    val := (OPG_ALU ||| OPF_OR ||| OPM_FLD_0 : Nat) },
  { name := "XOR", typ := TYP_OP_CODE, tid := TOK_OP_XOR,
    val := (OPG_ALU ||| OPF_XOR ||| OPM_FLD_0 : Nat) },
  { name := "CMP", typ := TYP_OP_CODE, tid := TOK_OP_CMP,
    val := (OPG_ALU ||| OPF_CMP_A ||| OPM_FLD_0 : Nat) },
  { name := "EXTR", typ := TYP_OP_CODE, tid := TOK_OP_EXTR,
    val := (OPG_ALU ||| OPF_BITOP ||| OPM_FLD_0 : Nat) },
  { name := "DEP", typ := TYP_OP_CODE, tid := TOK_OP_DEP,
    val := (OPG_ALU ||| OPF_BITOP ||| OPM_FLD_1 : Nat) },
  { name := "DSR", typ := TYP_OP_CODE, tid := TOK_OP_DSR,
    val := (OPG_ALU ||| OPF_BITOP ||| OPM_FLD_2 : Nat) },
  { name := "SHL1A", typ := TYP_OP_CODE, tid := TOK_OP_SHL1A,
    val := (OPG_ALU ||| OPF_SHAOP ||| OPM_FLD_0 : Nat) },
  { name := "SHL2A", typ := TYP_OP_CODE, tid := TOK_OP_SHL2A,
    val := (OPG_ALU ||| OPF_SHAOP ||| OPM_FLD_0 : Nat) },
  { name := "SHL3A", typ := TYP_OP_CODE, tid := TOK_OP_SHL3A,
    val := (OPG_ALU ||| OPF_SHAOP ||| OPM_FLD_0 : Nat) },
  { name := "SHR1A", typ := TYP_OP_CODE, tid := TOK_OP_SHR1A,
    val := (OPG_ALU ||| OPF_SHAOP ||| OPM_FLD_2 : Nat) }]

def asmTokTabPart4 : List Token := [
  { name := "SHR2A", typ := TYP_OP_CODE, tid := TOK_OP_SHR2A,
    val := (OPG_ALU ||| OPF_SHAOP ||| OPM_FLD_2 : Nat) },
  { name := "SHR3A", typ := TYP_OP_CODE, tid := TOK_OP_SHR3A,
    val := (OPG_ALU ||| OPF_SHAOP ||| OPM_FLD_2 : Nat) },
  { name := "LDIL", typ := TYP_OP_CODE, tid := TOK_OP_LDIL,
    val := (OPG_ALU ||| OPF_IMMOP ||| OPM_FLD_0 : Nat) },
  { name := "ADDIL", typ := TYP_OP_CODE, tid := TOK_OP_ADDIL,
    val := (OPG_ALU ||| OPF_IMMOP ||| OPM_FLD_0 : Nat) },
  { name := "LDO", typ := TYP_OP_CODE, tid := TOK_OP_LDO,
    val := (OPG_ALU ||| OPF_LDO ||| OPM_FLD_0 : Nat) },
  { name := "LD", typ := TYP_OP_CODE, tid := TOK_OP_LD,
    val := (OPG_MEM ||| OPF_LD ||| OPM_FLD_0 : Nat) },
  { name := "LDR", typ := TYP_OP_CODE, tid := TOK_OP_LDR,
    val := (OPG_MEM ||| OPF_LDR ||| OPM_FLD_0 : Nat) },
  { name := "ST", typ := TYP_OP_CODE, tid := TOK_OP_ST,
    val := (OPG_MEM ||| OPF_ST ||| OPM_FLD_1 : Nat) },
  { name := "STC", typ := TYP_OP_CODE, tid := TOK_OP_STC,
    val := (OPG_MEM ||| OPF_STC ||| OPM_FLD_1 : Nat) },
  { name := "B", typ := TYP_OP_CODE, tid := TOK_OP_B,
    val := (OPG_BR ||| OPF_B ||| OPM_FLD_0 : Nat) },
  { name := "BE", typ := TYP_OP_CODE, tid := TOK_OP_BE,
    val := (OPG_BR ||| OPF_BE ||| OPM_FLD_0 : Nat) },
  { name := "BR", typ := TYP_OP_CODE, tid := TOK_OP_BR,
    val := (OPG_BR ||| OPF_BR ||| OPM_FLD_0 : Nat) },
  { name := "BV", typ := TYP_OP_CODE, tid := TOK_OP_BV,
    val := (OPG_BR ||| OPF_BV ||| OPM_FLD_0 : Nat) },
  { name := "BB", typ := TYP_OP_CODE, tid := TOK_OP_BB,
    val := (OPG_BR ||| OPF_BB ||| OPM_FLD_0 : Nat) },
  { name := "CBR", typ := TYP_OP_CODE, tid := TOK_OP_CBR,
    val := (OPG_BR ||| OPF_CBR ||| OPM_FLD_0 : Nat) },
  { name := "MBR", typ := TYP_OP_CODE, tid := TOK_OP_MBR,
    val := (OPG_BR ||| OPF_MBR ||| OPM_FLD_0 : Nat) }]

def asmTokTabPart5 : List Token := [
  { name := "ABR", typ := TYP_OP_CODE, tid := TOK_OP_ABR,
    val := (OPG_BR ||| OPF_ABR ||| OPM_FLD_0 : Nat) },
  { name := "MFCR", typ := TYP_OP_CODE, tid := TOK_OP_MFCR,
    val := (OPG_SYS ||| OPF_MR ||| OPM_FLD_0 : Nat) },
  { name := "MTCR", typ := TYP_OP_CODE, tid := TOK_OP_MTCR,
    val := (OPG_SYS ||| OPF_MR ||| OPM_FLD_1 : Nat) },
  { name := "MFIA", typ := TYP_OP_CODE, tid := TOK_OP_MFIA,
    val := (OPG_SYS ||| OPF_MR ||| OPM_FLD_2 : Nat) },
  { name := "LPA", typ := TYP_OP_CODE, tid := TOK_OP_LPA,
    val := (OPG_SYS ||| OPF_LPA ||| OPM_FLD_0 : Nat) },
  { name := "PRB", typ := TYP_OP_CODE, tid := TOK_OP_PRB,
    val := (OPG_SYS ||| OPF_PRB ||| OPM_FLD_0 : Nat) },
  { name := "IITLB", typ := TYP_OP_CODE, tid := TOK_OP_IITLB,
    val := (OPG_SYS ||| OPF_TLB ||| OPM_FLD_0 : Nat) },
  { name := "IDTLB", typ := TYP_OP_CODE, tid := TOK_OP_IDTLB,
    val := (OPG_SYS ||| OPF_TLB ||| OPM_FLD_1 : Nat) },
  { name := "PITLB", typ := TYP_OP_CODE, tid := TOK_OP_PITLB,
    val := (OPG_SYS ||| OPF_TLB ||| OPM_FLD_2 : Nat) },
  { name := "PDTLB", typ := TYP_OP_CODE, tid := TOK_OP_PDTLB,
    val := (OPG_SYS ||| OPF_TLB ||| OPM_FLD_3 : Nat) },
  { name := "PICA", typ := TYP_OP_CODE, tid := TOK_OP_PICA,
    val := (OPG_SYS ||| OPF_CA ||| OPM_FLD_0 : Nat) },
  { name := "PDCA", typ := TYP_OP_CODE, tid := TOK_OP_PDCA,
    val := (OPG_SYS ||| OPF_CA ||| OPM_FLD_1 : Nat) },
  { name := "FICA", typ := TYP_OP_CODE, tid := TOK_OP_FICA,
    val := (OPG_SYS ||| OPF_CA ||| OPM_FLD_2 : Nat) },
  { name := "FDCA", typ := TYP_OP_CODE, tid := TOK_OP_FDCA,
    val := (OPG_SYS ||| OPF_CA ||| OPM_FLD_3 : Nat) },
  { name := "RSM", typ := TYP_OP_CODE, tid := TOK_OP_RSM,
    val := (OPG_SYS ||| OPF_MST ||| OPM_FLD_0 : Nat) },
  { name := "SSM", typ := TYP_OP_CODE, tid := TOK_OP_SSM,
    val := (OPG_SYS ||| OPF_MST ||| OPM_FLD_1 : Nat) }]

def asmTokTabPart6 : List Token := [
  { name := "TRAP", typ := TYP_OP_CODE, tid := TOK_OP_TRAP,
    val := (OPG_SYS ||| OPF_TRAP ||| OPM_FLD_1 : Nat) },
  { name := "RFI", typ := TYP_OP_CODE, tid := TOK_OP_RFI,
    val := (OPG_SYS ||| OPF_RFI ||| OPM_FLD_0 : Nat) },
  { name := "DIAG", typ := TYP_OP_CODE, tid := TOK_OP_DIAG,
    val := (OPG_SYS ||| OPF_DIAG ||| OPM_FLD_0 : Nat) },
  { name := "NOP", typ := TYP_OP_CODE, tid := TOK_OP_NOP,
    val := (OPG_ALU ||| OPF_NOP ||| OPM_FLD_0 : Nat) }]

def AsmTokTab : List Token :=
  asmTokTabPart0 ++ asmTokTabPart1 ++ asmTokTabPart2 ++ asmTokTabPart3 ++ asmTokTabPart4 ++ asmTokTabPart5 ++ asmTokTabPart6

/-- Source lookupToken: reject empty or over-long names, then linear
search. -/
def lookupToken (inputStr : String) : Option Token :=
  if inputStr.length = 0 ∨ inputStr.length > 32 then none
  else AsmTokTab.find? (fun t => t.name = inputStr)

/-! ## Tokenizer state and monad -/

/-- The tokenizer globals of T64-InlineAsm.cpp, together with the
instruction word under construction (the C++ passes a pointer to it through
every parse routine). -/
structure AsmState where
  tokenLine : List Char
  currentLineLen : Nat
  currentCharIndex : Nat
  currentTokCharIndex : Nat
  currentChar : Char
  currentToken : Token
  instr : Nat

/-- The assembler computation monad: state threading with typed errors
(the C++ mutates globals and throws ErrId values). -/
abbrev AsmM (α : Type) := StateT AsmState (Except AsmErr) α

def initAsmState : AsmState :=
  { tokenLine := [], currentLineLen := 0, currentCharIndex := 0,
    currentTokCharIndex := 0, currentChar := ' ', currentToken := nilToken,
    instr := 0 }

def eosChar : Char := Char.ofNat 0

/-- ASCII classification and case helpers (the ctype calls of the source). -/
def asciiIsDigit (c : Char) : Bool := decide ('0' ≤ c ∧ c ≤ '9')

def asciiIsAlpha (c : Char) : Bool :=
  decide ('A' ≤ c ∧ c ≤ 'Z') || decide ('a' ≤ c ∧ c ≤ 'z')

def asciiIsAlnum (c : Char) : Bool := asciiIsAlpha c || asciiIsDigit c

def asciiToUpper (c : Char) : Char :=
  if decide ('a' ≤ c ∧ c ≤ 'z') then Char.ofNat (c.toNat - 32) else c

/-- Source upshiftStr on a character list. -/
def upshiftList (s : List Char) : List Char := s.map asciiToUpper

/-- Source upshiftStr on a string buffer. -/
def upshiftStr (s : String) : String := String.mk (upshiftList s.toList)

/-- Source addChar: append when the buffer (MAX_INPUT_LINE_SIZE = 256) has
room. -/
def addChar (buf : String) (c : Char) : String :=
  if buf.length + 1 < 256 then buf.push c else buf

/-- Source nextChar. -/
def nextChar : AsmM Unit := do
  let st ← get
  if st.currentCharIndex < st.currentLineLen then
    set { st with currentChar := st.tokenLine.getD st.currentCharIndex eosChar,
                  currentCharIndex := st.currentCharIndex + 1 }
  else
    set { st with currentChar := eosChar }

/-- Character loop budget: the character loops of the tokenizer advance at
least one input character per step on a line of at most MAX_INPUT_LINE_SIZE
characters, so this constant budget never runs out on inputs that fit the
C++ line buffer. -/
def charFuel : Nat := 258

/-- The do-while digit loop of parseNum. Underscores are skipped; a digit is
validated against the base and accumulated (the int64 accumulation wraps as
the C++ does); more than maxDigits digits raise InvalidNum. -/
def parseNumLoop (base maxDigits : Nat) : Nat → Nat → Int → AsmM Int
  | 0, _, _ => throw .outOfFuel
  | k + 1, digits, tmpVal => do
    let st ← get
    let c := st.currentChar
    let acc ←
      if c = '_' then do
        nextChar
        pure (digits, tmpVal)
      else do
        let digitVal : Int ←
          if asciiIsDigit c then
            let d : Nat := c.toNat - '0'.toNat
            if d ≥ base then throw AsmErr.invalidNum else pure (d : Int)
          else if base = 16 ∧ 'a' ≤ c ∧ c ≤ 'f' then
            pure ((c.toNat - 'a'.toNat + 10 : Nat) : Int)
          else if base = 16 ∧ 'A' ≤ c ∧ c ≤ 'F' then
            pure ((c.toNat - 'A'.toNat + 10 : Nat) : Int)
          else throw AsmErr.invalidNum
        let tmpVal := wrap64 (tmpVal * (base : Int) + digitVal)
        nextChar
        if digits + 1 > maxDigits then throw AsmErr.invalidNum
        else pure (digits + 1, tmpVal)
    let st ← get
    let c := st.currentChar
    if c = '_' ∨ asciiIsDigit c = true ∨
        (base = 16 ∧ (('a' ≤ c ∧ c ≤ 'f') ∨ ('A' ≤ c ∧ c ≤ 'F'))) then
      parseNumLoop base maxDigits k acc.1 acc.2
    else pure acc.2

/-- Source parseNum: decimal, hexadecimal (0x) and binary (0b) numbers with
optional underscores; a bare 0 followed by a non-digit returns value 0. -/
def parseNum : AsmM Unit := do
  modify fun st => { st with
    currentToken := { name := "", typ := TYP_NUM, tid := TOK_NUM, val := 0 } }
  let st ← get
  if st.currentChar = '0' then do
    nextChar
    let st ← get
    if st.currentChar = 'X' ∨ st.currentChar = 'x' then do
      nextChar
      let v ← parseNumLoop 16 16 charFuel 0 0
      modify fun st => { st with
        currentToken := { st.currentToken with val := v } }
    else if st.currentChar = 'B' ∨ st.currentChar = 'b' then do
      nextChar
      let v ← parseNumLoop 2 64 charFuel 0 0
      modify fun st => { st with
        currentToken := { st.currentToken with val := v } }
    else if ¬ (asciiIsDigit st.currentChar = true) then
      pure ()
    else do
      let v ← parseNumLoop 10 22 charFuel 0 0
      modify fun st => { st with
        currentToken := { st.currentToken with val := v } }
  else do
    let v ← parseNumLoop 10 22 charFuel 0 0
    modify fun st => { st with
      currentToken := { st.currentToken with val := v } }

/-- The identifier character loop of parseIdent. -/
def parseIdentLoop : Nat → String → AsmM String
  | 0, _ => throw .outOfFuel
  | k + 1, buf => do
    let st ← get
    let c := st.currentChar
    if asciiIsAlnum c = true ∨ c = '_' then do
      let buf := addChar buf c
      nextChar
      parseIdentLoop k buf
    else pure buf

/-- Shared tail of parseIdent: finish scanning the identifier, upshift it
and look it up; a hit copies the table token, a miss produces a plain
identifier token. -/
def parseIdentFinish (buf : String) : AsmM Unit := do
  let buf ← parseIdentLoop charFuel buf
  let buf := upshiftStr buf
  match lookupToken buf with
  | none =>
    modify fun st => { st with
      currentToken := { name := buf, typ := TYP_IDENT, tid := TOK_IDENT, val := 0 } }
  | some t => modify fun st => { st with currentToken := t }

/-- Qualified-constant tail of parseIdent: after one of the prefixes L%, R%,
M% or U% a number is parsed and the selected bits are extracted (the source
masks the int64 value and shifts it arithmetically). -/
def parseIdentQualified (mask : Int) (shift : Nat) : AsmM Unit := do
  let st ← get
  if asciiIsDigit st.currentChar then do
    parseNum
    modify fun st => { st with
      currentToken := { st.currentToken with
        val := asrW (landW st.currentToken.val mask) shift } }
  else throw AsmErr.invalidCharInIdent

/-- Source parseIdent. -/
def parseIdent : AsmM Unit := do
  modify fun st => { st with
    currentToken := { name := "", typ := TYP_IDENT, tid := TOK_IDENT, val := 0 } }
  let st ← get
  let c := st.currentChar
  if c = 'L' ∨ c = 'l' then do
    let buf := addChar "" c
    nextChar
    let st ← get
    if st.currentChar = '%' then do
      nextChar
      parseIdentQualified 0x00000000FFFFF000 12
    else parseIdentFinish buf
  else if c = 'R' ∨ c = 'r' then do
    let buf := addChar "" c
    nextChar
    let st ← get
    if st.currentChar = '%' then do
      nextChar
      parseIdentQualified 0x0000000000000FFF 0
    else parseIdentFinish buf
  else if c = 'M' ∨ c = 'm' then do
    let buf := addChar "" c
    nextChar
    let st ← get
    if st.currentChar = '%' then do
      nextChar
      parseIdentQualified 0x000FFFFF00000000 32
    else parseIdentFinish buf
  else if c = 'U' ∨ c = 'u' then do
    let buf := addChar "" c
    nextChar
    let st ← get
    if st.currentChar = '%' then do
      nextChar
      parseIdentQualified 0xFFF0000000000000 52
    else parseIdentFinish buf
  else parseIdentFinish ""

/-- The leading whitespace loop of nextToken. -/
def skipWhitespace : Nat → AsmM Unit
  | 0 => throw .outOfFuel
  | k + 1 => do
    let st ← get
    if st.currentChar = ' ' ∨ st.currentChar = '\n' ∨ st.currentChar = '\r' then do
      nextChar
      skipWhitespace k
    else pure ()

/-- Record a symbol token. -/
def setSymToken (typ tid : Nat) : AsmM Unit :=
  modify fun st => { st with
    currentToken := { st.currentToken with typ := typ, tid := tid } }

/-- Source nextToken, the lexer entry point. The R% qualified constant of
parseIdent makes 0xFFF... masks appear; the token start column becomes
currentCharIndex - 1 (saturating at 0 where the C++ int would go to -1 on an
empty line). -/
def nextToken : AsmM Unit := do
  modify fun st => { st with currentToken := nilToken }
  skipWhitespace charFuel
  modify fun st => { st with currentTokCharIndex := st.currentCharIndex - 1 }
  let st ← get
  let c := st.currentChar
  if asciiIsAlpha c then parseIdent
  else if asciiIsDigit c then parseNum
  else if c = '.' then do setSymToken TYP_SYM TOK_PERIOD; nextChar
  else if c = '+' then do
    modify fun st => { st with
      currentToken := { st.currentToken with tid := TOK_PLUS } }
    nextChar
  else if c = '-' then do setSymToken TYP_SYM TOK_MINUS; nextChar
  else if c = '*' then do setSymToken TYP_SYM TOK_MULT; nextChar
  else if c = '/' then do setSymToken TYP_SYM TOK_DIV; nextChar
  else if c = '%' then do setSymToken TYP_SYM TOK_MOD; nextChar
  else if c = '&' then do setSymToken TYP_SYM TOK_AND; nextChar
  else if c = '|' then do setSymToken TYP_SYM TOK_OR; nextChar
  else if c = '^' then do setSymToken TYP_SYM TOK_XOR; nextChar
  else if c = '~' then do setSymToken TYP_SYM TOK_NEG; nextChar
  else if c = '(' then do setSymToken TYP_SYM TOK_LPAREN; nextChar
  else if c = ')' then do setSymToken TYP_SYM TOK_RPAREN; nextChar
  else if c = ',' then do setSymToken TYP_SYM TOK_COMMA; nextChar
  else if c = ';' then
    modify fun st => { st with
      currentCharIndex := st.currentLineLen,
      currentToken := { st.currentToken with typ := TYP_NIL, tid := TOK_EOS } }
  else if c = eosChar then
    modify fun st => { st with
      currentToken := { st.currentToken with typ := TYP_NIL, tid := TOK_EOS } }
  else do
    modify fun st => { st with
      currentToken := { st.currentToken with tid := TOK_ERR } }
    throw AsmErr.invalidCharInIdent

/-- Source setupTokenizer: copy and upshift the line, reset the cursor and
fetch the first token. -/
def setupTokenizer (inputStr : String) : AsmM Unit := do
  modify fun st => { st with
    tokenLine := upshiftList inputStr.toList,
    currentLineLen := inputStr.toList.length,
    currentCharIndex := 0,
    currentTokCharIndex := 0,
    currentChar := ' ' }
  nextToken

/-! ## Parser helpers -/

def isToken (tid : Nat) : AsmM Bool := do
  let st ← get
  pure (st.currentToken.tid == tid)

def isTokenTyp (typ : Nat) : AsmM Bool := do
  let st ← get
  pure (st.currentToken.typ == typ)

def acceptEOS : AsmM Unit := do
  let st ← get
  if st.currentToken.tid = TOK_EOS then pure ()
  else throw AsmErr.extraTokenInStr

def acceptComma : AsmM Unit := do
  let st ← get
  if st.currentToken.tid = TOK_COMMA then nextToken
  else throw AsmErr.expectedComma

def acceptLparen : AsmM Unit := do
  let st ← get
  if st.currentToken.tid = TOK_LPAREN then nextToken
  else throw AsmErr.expectedLparen

def acceptRparen : AsmM Unit := do
  let st ← get
  if st.currentToken.tid = TOK_RPAREN then nextToken
  else throw AsmErr.expectedRparen

/-! ## Expressions -/

/-- Expression value (struct Expr of the assembler). -/
structure Expr where
  typ : Nat
  val : Int

def INIT_EXPR : Expr := { typ := TYP_NIL, val := 0 }

/-- Source addOp: checked signed addition of two numeric expressions. -/
def addOp (a b : Expr) : AsmM Int := do
  if a.typ ≠ TYP_NUM then throw AsmErr.expectedNumeric
  else if b.typ ≠ TYP_NUM then throw AsmErr.expectedNumeric
  else if willAddOverflow a.val b.val then throw AsmErr.numericOverflow
  else pure (a.val + b.val)

/-- Source subOp. -/
def subOp (a b : Expr) : AsmM Int := do
  if a.typ ≠ TYP_NUM then throw AsmErr.expectedNumeric
  else if b.typ ≠ TYP_NUM then throw AsmErr.expectedNumeric
  else if willSubOverflow a.val b.val then throw AsmErr.numericOverflow
  else pure (a.val - b.val)

/-- Source willMultOverflow. -/
def willMultOverflow (a b : Int) : Bool :=
  if a = 0 ∨ b = 0 then false
  else if a = I64MIN ∧ b = -1 then true
  else if b = I64MIN ∧ a = -1 then true
  else if a > 0 then
    if b > 0 then a > Int.tdiv I64MAX b else b < Int.tdiv I64MIN a
  else
    if b > 0 then a < Int.tdiv I64MIN b else a < Int.tdiv I64MAX b

/-- Source willDivOverflow. -/
def willDivOverflow (a b : Int) : Bool :=
  if b = 0 then true
  else if a = I64MIN ∧ b = -1 then true
  else false

/-- Source multOp. -/
def multOp (a b : Expr) : AsmM Int := do
  if a.typ ≠ TYP_NUM then throw AsmErr.expectedNumeric
  else if b.typ ≠ TYP_NUM then throw AsmErr.expectedNumeric
  else if willMultOverflow a.val b.val then throw AsmErr.numericOverflow
  else pure (a.val * b.val)

/-- Source divOp (C++ signed division truncates toward zero). -/
def divOp (a b : Expr) : AsmM Int := do
  if a.typ ≠ TYP_NUM then throw AsmErr.expectedNumeric
  else if b.typ ≠ TYP_NUM then throw AsmErr.expectedNumeric
  else if willDivOverflow a.val b.val then throw AsmErr.numericOverflow
  else pure (Int.tdiv a.val b.val)

/-- Source modOp (C++ signed remainder takes the dividend sign). -/
def modOp (a b : Expr) : AsmM Int := do
  if a.typ ≠ TYP_NUM then throw AsmErr.expectedNumeric
  else if b.typ ≠ TYP_NUM then throw AsmErr.expectedNumeric
  else if willDivOverflow a.val b.val then throw AsmErr.numericOverflow
  else pure (Int.tmod a.val b.val)

/-! Source parseFactor, parseTerm and parseExpr (mutually recursive; the
recursion budget falls by one on every nested call). The TOK_NEG branch of
parseFactor recurses without consuming the token, exactly as the source
does. -/

mutual

def parseFactor : Nat → AsmM Expr
  | 0 => throw .outOfFuel
  | fuel + 1 => do
    let st ← get
    let tok := st.currentToken
    if tok.tid = TOK_NUM then do
      nextToken
      pure { typ := TYP_NUM, val := tok.val }
    else if tok.typ = TYP_GREG then do
      nextToken
      pure { typ := TYP_GREG, val := tok.val }
    else if tok.typ = TYP_CREG then do
      nextToken
      pure { typ := TYP_CREG, val := tok.val }
    else if tok.tid = TOK_NEG then do
      let e ← parseFactor fuel
      pure { e with val := lnotW e.val }
    else if tok.tid = TOK_LPAREN then do
      nextToken
      let e ← parseExpr fuel
      acceptRparen
      pure e
    else throw AsmErr.invalidExpr

def parseTermLoop : Nat → Expr → AsmM Expr
  | 0, _ => throw .outOfFuel
  | fuel + 1, r => do
    let st ← get
    let t := st.currentToken.tid
    if t = TOK_MULT ∨ t = TOK_DIV ∨ t = TOK_MOD ∨ t = TOK_AND then do
      nextToken
      let l ← parseFactor fuel
      if r.typ ≠ l.typ then throw AsmErr.exprTypeMatch
      else do
        let v : Int ←
          if t = TOK_MULT then multOp r l
          else if t = TOK_DIV then divOp r l
          else if t = TOK_MOD then modOp r l
          else pure (landW r.val l.val)
        parseTermLoop fuel { r with val := v }
    else pure r

def parseTerm : Nat → AsmM Expr
  | 0 => throw .outOfFuel
  | fuel + 1 => do
    let r ← parseFactor fuel
    parseTermLoop fuel r

def parseExprLoop : Nat → Expr → AsmM Expr
  | 0, _ => throw .outOfFuel
  | fuel + 1, r => do
    let st ← get
    let t := st.currentToken.tid
    if t = TOK_PLUS ∨ t = TOK_MINUS ∨ t = TOK_OR ∨ t = TOK_XOR then do
      nextToken
      let l ← parseTerm fuel
      if r.typ ≠ l.typ then throw AsmErr.exprTypeMatch
      else do
        let v : Int ←
          if t = TOK_PLUS then addOp r l
          else if t = TOK_MINUS then subOp r l
          else if t = TOK_OR then pure (lorW r.val l.val)
          else pure (lxorW r.val l.val)
        parseExprLoop fuel { r with val := v }
    else pure r

def parseExpr : Nat → AsmM Expr
  | 0 => throw .outOfFuel
  | fuel + 1 => do
    let st ← get
    if st.currentToken.tid = TOK_PLUS then do
      nextToken
      let r ← parseTerm fuel
      if ¬ (r.typ = TYP_NUM) then throw AsmErr.expectedNumeric
      else parseExprLoop fuel r
    else if st.currentToken.tid = TOK_MINUS then do
      nextToken
      let r ← parseTerm fuel
      if r.typ = TYP_NUM then parseExprLoop fuel { r with val := -r.val }
      else throw AsmErr.expectedNumeric
    else do
      let r ← parseTerm fuel
      parseExprLoop fuel r

end

/-! ## Instruction field helpers of the assembler -/

/-- Truncation of an int64 value to the int parameter type of the deposit
helpers (the C++ call sites convert through uint32). -/
def toInt32 (v : Int) : Int :=
  let p : Nat := pat64 v % 2 ^ 32
  if p < 2 ^ 31 then (p : Int) else (p : Int) - 2 ^ 32

/-- Source depositInstrFieldS of the assembler: range-check the signed value
for the field width, then deposit. -/
def depositFieldS (bitpos len : Nat) (value : Int) : AsmM Unit := do
  if isInRangeForInstrBitFieldS value len then
    modify fun st => { st with instr := depositInstrField st.instr bitpos len value }
  else throw AsmErr.immValRange

/-- Source depositInstrFieldU of the assembler. -/
def depositFieldU (bitpos len : Nat) (value : Nat) : AsmM Unit := do
  if isInRangeForInstrBitFieldU value len then
    modify fun st => { st with
      instr := depositInstrField st.instr bitpos len (value : Int) }
  else throw AsmErr.immValRange

/-- Source depositInstrField used directly (no range check). -/
def depositFieldRaw (bitpos len : Nat) (value : Int) : AsmM Unit :=
  modify fun st => { st with instr := depositInstrField st.instr bitpos len value }

/-- Source depositInstrBit on the word under construction. -/
def depositBit (bitpos : Nat) (value : Bool) : AsmM Unit :=
  modify fun st => { st with instr := depositInstrBit st.instr bitpos value }

/-- Source depositInstrImm13. -/
def depositImm13 (val : Int) : AsmM Unit := depositFieldS 0 13 val

/-- Source depositInstrScaledImm13: shift the offset right by the DW field
already deposited in the word, then deposit the signed 13-bit field. -/
def depositScaledImm13 (val : Int) : AsmM Unit := do
  let st ← get
  let val := asrW val (extractInstrFieldU st.instr 13 2)
  depositFieldS 0 13 val

/-- Source depositInstrImm15. -/
def depositImm15 (val : Int) : AsmM Unit := depositFieldS 0 15 val

/-- Source depositInstrImm19. -/
def depositImm19 (val : Int) : AsmM Unit := depositFieldS 0 19 val

/-- Source depositInstrImm20U. -/
def depositImm20U (val : Nat) : AsmM Unit := depositFieldU 0 20 val

/-- Source replaceInstrGroupField: replace bits 31..30 of the word from the
template mask. -/
def replaceInstrGroupField (instrMask : Nat) : AsmM Unit :=
  modify fun st => { st with
    instr := (st.instr &&& 0x3FFFFFFF) ||| (instrMask &&& 0xC0000000) }

/-- Source replaceInstrOpCodeField: replace bits 29..26 of the word from the
template mask. -/
def replaceInstrOpCodeField (instrMask : Nat) : AsmM Unit :=
  modify fun st => { st with
    instr := (st.instr &&& 0xC3FFFFFF) ||| (instrMask &&& 0x3C000000) }

/-- Source hasDataWidthFlags. -/
def hasDataWidthFlags (instrFlags : Nat) : Bool :=
  (instrFlags &&& IF_B != 0) || (instrFlags &&& IF_H != 0) ||
    (instrFlags &&& IF_W != 0) || (instrFlags &&& IF_D != 0)

/-- Source hasCmpCodeFlags. -/
def hasCmpCodeFlags (instrFlags : Nat) : Bool :=
  (instrFlags &&& IF_EQ != 0) || (instrFlags &&& IF_NE != 0) ||
    (instrFlags &&& IF_LT != 0) || (instrFlags &&& IF_LE != 0) ||
    (instrFlags &&& IF_GT != 0) || (instrFlags &&& IF_GE != 0) ||
    (instrFlags &&& IF_EV != 0) || (instrFlags &&& IF_OD != 0)

/-- Source setInstrCompareCondField: the fixed flag-to-code table EQ=0,
LT=1, GT=2, EV=3, NE=4, GE=5, LE=6, OD=7. -/
def setInstrCompareCondField (instrFlags : Nat) : AsmM Unit := do
  if instrFlags &&& IF_EQ ≠ 0 then depositFieldU 19 3 0
  else if instrFlags &&& IF_LT ≠ 0 then depositFieldU 19 3 1
  else if instrFlags &&& IF_GT ≠ 0 then depositFieldU 19 3 2
  else if instrFlags &&& IF_EV ≠ 0 then depositFieldU 19 3 3
  else if instrFlags &&& IF_NE ≠ 0 then depositFieldU 19 3 4
  else if instrFlags &&& IF_GE ≠ 0 then depositFieldU 19 3 5
  else if instrFlags &&& IF_LE ≠ 0 then depositFieldU 19 3 6
  else if instrFlags &&& IF_OD ≠ 0 then depositFieldU 19 3 7
  else pure ()

/-- Source setInstrDwField: default to D when no width flag is set, then
deposit the two DW bits. -/
def setInstrDwField (instrFlags : Nat) : AsmM Unit := do
  let instrFlags :=
    if ¬ (hasDataWidthFlags instrFlags = true) then instrFlags ||| IF_D
    else instrFlags
  if instrFlags &&& IF_B ≠ 0 then depositFieldU 13 2 0
  else if instrFlags &&& IF_H ≠ 0 then depositFieldU 13 2 1
  else if instrFlags &&& IF_W ≠ 0 then depositFieldU 13 2 2
  else if instrFlags &&& IF_D ≠ 0 then depositFieldU 13 2 3
  else pure ()

/-- Source checkOfsAlignment: the offset of a memory form must be aligned
to the data width (no restriction for byte width). -/
def checkOfsAlignment (ofs : Int) (instrFlags : Nat) : AsmM Unit := do
  let instrFlags :=
    if ¬ (hasDataWidthFlags instrFlags = true) then instrFlags ||| IF_D
    else instrFlags
  if instrFlags &&& IF_B = 0 then
    if ¬ ((instrFlags &&& IF_H ≠ 0 ∧ isAlignedDataAdr ofs 2 = true) ∨
          (instrFlags &&& IF_W ≠ 0 ∧ isAlignedDataAdr ofs 4 = true) ∨
          (instrFlags &&& IF_D ≠ 0 ∧ isAlignedDataAdr ofs 8 = true)) then
      throw AsmErr.invalidOfs
    else pure ()
  else pure ()

/-! ## Option parsing -/

/-- The per-character flag scan of parseInstrOptions. -/
def scanOptChars : List Char → Nat → AsmM Nat
  | [], m => pure m
  | c :: rest, m =>
    if c = 'A' then scanOptChars rest (m ||| IF_A)
    else if c = 'B' then scanOptChars rest (m ||| IF_B)
    else if c = 'C' then scanOptChars rest (m ||| IF_C)
    else if c = 'D' then scanOptChars rest (m ||| IF_D)
    else if c = 'F' then scanOptChars rest (m ||| IF_F)
    else if c = 'G' then scanOptChars rest (m ||| IF_G)
    else if c = 'H' then scanOptChars rest (m ||| IF_H)
    else if c = 'I' then scanOptChars rest (m ||| IF_I)
    else if c = 'L' then scanOptChars rest (m ||| IF_L)
    else if c = 'M' then scanOptChars rest (m ||| IF_M)
    else if c = 'N' then scanOptChars rest (m ||| IF_N)
    else if c = 'Q' then scanOptChars rest (m ||| IF_Q)
    else if c = 'S' then scanOptChars rest (m ||| IF_S)
    else if c = 'T' then scanOptChars rest (m ||| IF_T)
    else if c = 'U' then scanOptChars rest (m ||| IF_U)
    else if c = 'W' then scanOptChars rest (m ||| IF_W)
    else if c = 'Z' then scanOptChars rest (m ||| IF_Z)
    else throw AsmErr.invalidInstrOpt

/-- The dotted-option loop of parseInstrOptions: each period is followed by
a condition-code pair or a run of single-letter flags; the mnemonic B is
patched back into a plain identifier when it appears as an option. -/
def parseInstrOptionsLoop : Nat → Nat → AsmM Nat
  | 0, _ => throw .outOfFuel
  | fuel + 1, instrMask => do
    let st ← get
    if st.currentToken.tid = TOK_PERIOD then do
      nextToken
      let st ← get
      if st.currentToken.tid = TOK_OP_B then
        modify fun s => { s with
          currentToken := { s.currentToken with
            typ := TYP_IDENT, tid := TOK_IDENT, name := "B" } }
      else pure ()
      let st ← get
      if st.currentToken.tid ≠ TOK_IDENT then throw AsmErr.expectedInstrOpt
      else do
        let optBuf := st.currentToken.name
        let instrMask ←
          if optBuf = "EQ" then pure (instrMask ||| IF_EQ)
          else if optBuf = "LT" then pure (instrMask ||| IF_LT)
          else if optBuf = "NE" then pure (instrMask ||| IF_NE)
          else if optBuf = "GE" then pure (instrMask ||| IF_GE)
          else if optBuf = "GT" then pure (instrMask ||| IF_GT)
          else if optBuf = "LE" then pure (instrMask ||| IF_LE)
          else if optBuf = "OD" then pure (instrMask ||| IF_OD)
          else if optBuf = "EV" then pure (instrMask ||| IF_EV)
          else scanOptChars optBuf.toList instrMask
        nextToken
        parseInstrOptionsLoop fuel instrMask
    else pure instrMask

/-- One where the count of set flags among a group may not exceed one. -/
def flagCount (instrMask : Nat) (flags : List Nat) : Nat :=
  flags.foldl (fun n f => if instrMask &&& f ≠ 0 then n + 1 else n) 0

/-- Bitwise complement within a 32-bit flag word (the C++ operator ~ on the
uint32 mask). -/
def mNot32 (x : Nat) : Nat := (2 ^ 32 - 1) ^^^ x

/-- The default data-width condition of parseInstrOptions: LD, ST and LDO
with no width flag, and LDR and STC always, receive the D flag. -/
def defaultDwApplies (instrOpToken instrMask : Nat) : Bool :=
  ((instrOpToken == TOK_OP_LD) && (instrMask &&& IM_LD_OP == 0)) ||
  ((instrOpToken == TOK_OP_ST) && (instrMask &&& IM_ST_OP == 0)) ||
  ((instrOpToken == TOK_OP_LDO) && (instrMask &&& IM_LDO_OP == 0)) ||
  (instrOpToken == TOK_OP_LDR) ||
  (instrOpToken == TOK_OP_STC)

/-- The validity-mask test of parseInstrOptions: true when the collected
flags contain one outside the instruction's permitted mask. -/
def optMaskViolation (instrOpToken instrMask : Nat) : Bool :=
  ((instrOpToken == TOK_OP_ADD) && (instrMask &&& mNot32 IM_ADD_OP != 0)) ||
  ((instrOpToken == TOK_OP_SUB) && (instrMask &&& mNot32 IM_SUB_OP != 0)) ||
  ((instrOpToken == TOK_OP_AND) && (instrMask &&& mNot32 IM_AND_OP != 0)) ||
  ((instrOpToken == TOK_OP_OR) && (instrMask &&& mNot32 IM_OR_OP != 0)) ||
  ((instrOpToken == TOK_OP_XOR) && (instrMask &&& mNot32 IM_XOR_OP != 0)) ||
  ((instrOpToken == TOK_OP_CMP) && (instrMask &&& mNot32 IM_CMP_OP != 0)) ||
  ((instrOpToken == TOK_OP_EXTR) && (instrMask &&& mNot32 IM_EXTR_OP != 0)) ||
  ((instrOpToken == TOK_OP_DEP) && (instrMask &&& mNot32 IM_DEP_OP != 0)) ||
  ((instrOpToken == TOK_OP_SHL1A) && (instrMask &&& mNot32 IM_SHLxA_OP != 0)) ||
  ((instrOpToken == TOK_OP_SHL2A) && (instrMask &&& mNot32 IM_SHLxA_OP != 0)) ||
  ((instrOpToken == TOK_OP_SHL3A) && (instrMask &&& mNot32 IM_SHLxA_OP != 0)) ||
  ((instrOpToken == TOK_OP_SHR1A) && (instrMask &&& mNot32 IM_SHRxA_OP != 0)) ||
  ((instrOpToken == TOK_OP_SHR2A) && (instrMask &&& mNot32 IM_SHRxA_OP != 0)) ||
  ((instrOpToken == TOK_OP_SHR3A) && (instrMask &&& mNot32 IM_SHRxA_OP != 0)) ||
  ((instrOpToken == TOK_OP_LDO) && (instrMask &&& mNot32 IM_LDO_OP != 0)) ||
  ((instrOpToken == TOK_OP_LDIL) && (instrMask &&& mNot32 IM_LDI_OP != 0)) ||
  ((instrOpToken == TOK_OP_ADDIL) && (instrMask &&& mNot32 IM_NIL != 0)) ||
  ((instrOpToken == TOK_OP_ABR) && (instrMask &&& mNot32 IM_ABR_OP != 0)) ||
  ((instrOpToken == TOK_OP_CBR) && (instrMask &&& mNot32 IM_CBR_OP != 0)) ||
  ((instrOpToken == TOK_OP_MBR) && (instrMask &&& mNot32 IM_MBR_OP != 0)) ||
  ((instrOpToken == TOK_OP_LD) && (instrMask &&& mNot32 IM_LD_OP != 0)) ||
  ((instrOpToken == TOK_OP_ST) && (instrMask &&& mNot32 IM_ST_OP != 0)) ||
  ((instrOpToken == TOK_OP_LDR) && (instrMask &&& mNot32 IM_LDR_OP != 0)) ||
  ((instrOpToken == TOK_OP_STC) && (instrMask &&& mNot32 IM_STC_OP != 0)) ||
  ((instrOpToken == TOK_OP_B) && (instrMask &&& mNot32 IM_B_OP != 0)) ||
  ((instrOpToken == TOK_OP_BR) && (instrMask &&& mNot32 IM_BR_OP != 0)) ||
  ((instrOpToken == TOK_OP_BV) && (instrMask &&& mNot32 IM_BV_OP != 0)) ||
  ((instrOpToken == TOK_OP_BB) && (instrMask &&& mNot32 IM_BB_OP != 0)) ||
  ((instrOpToken == TOK_OP_MFIA) && (instrMask &&& mNot32 IM_MFIA_OP != 0)) ||
  ((instrOpToken == TOK_OP_NOP) && (instrMask &&& mNot32 IM_NIL != 0))

/-- Source parseInstrOptions: collect the option flags, enforce the
exclusive groups, inject the default D width for the memory forms, and
reject flags outside the instruction validity mask. -/
def parseInstrOptions (fuel : Nat) (instrOpToken : Nat) : AsmM Nat := do
  let instrMask ← parseInstrOptionsLoop fuel IM_NIL
  if flagCount instrMask [IF_W, IF_D, IF_Q] > 1 then
    throw AsmErr.duplicateInstrOpt
  else if flagCount instrMask [IF_B, IF_H, IF_W, IF_D] > 1 then
    throw AsmErr.duplicateInstrOpt
  else if flagCount instrMask
      [IF_EQ, IF_LT, IF_NE, IF_LE, IF_GT, IF_GE, IF_OD, IF_EV] > 1 then
    throw AsmErr.duplicateInstrOpt
  else if flagCount instrMask [IF_T, IF_F] > 1 then
    throw AsmErr.duplicateInstrOpt
  else if flagCount instrMask [IF_L, IF_M, IF_U] > 1 then
    throw AsmErr.duplicateInstrOpt
  else do
    let instrMask :=
      if defaultDwApplies instrOpToken instrMask then instrMask ||| IF_D
      else instrMask
    if optMaskViolation instrOpToken instrMask then
      throw AsmErr.invalidInstrOpt
    else pure instrMask

/-! ## Register operand acceptance -/

/-- Source acceptRegR. -/
def acceptRegR (fuel : Nat) : AsmM Unit := do
  let e ← parseExpr fuel
  if e.typ = TYP_GREG then
    modify fun st => { st with instr := depositInstrRegR st.instr e.val }
  else throw AsmErr.expectedGeneralReg

/-- Source acceptRegA. -/
def acceptRegA (fuel : Nat) : AsmM Unit := do
  let e ← parseExpr fuel
  if e.typ = TYP_GREG then
    modify fun st => { st with instr := depositInstrRegA st.instr e.val }
  else throw AsmErr.expectedGeneralReg

/-- Source acceptRegB. -/
def acceptRegB (fuel : Nat) : AsmM Unit := do
  let e ← parseExpr fuel
  if e.typ = TYP_GREG then
    modify fun st => { st with instr := depositInstrRegB st.instr e.val }
  else throw AsmErr.expectedGeneralReg

/-! ## Instruction parse routines

Each routine mirrors its source counterpart statement by statement. Where a
C++ call site converts a T64Word expression value through (uint32_t) into an
int or uint32 parameter, the embedding applies toInt32 or toUInt32. -/

/-- Truncation of an int64 value to a uint32 argument. -/
def toUInt32n (v : Int) : Nat := pat64 v % 2 ^ 32

/-- Source parseNopInstr. -/
def parseNopInstr (_fuel : Nat) (_instrOpToken : Nat) : AsmM Unit := do
  nextToken
  acceptEOS

/-- The option post-processing at the end of parseModeTypeInstr: AND and OR
take the C and N modifier bits, XOR takes N, CMP requires and deposits a
condition code. -/
def modeTypePost (instrOpToken instrFlags : Nat) : AsmM Unit := do
  if instrOpToken = TOK_OP_AND ∨ instrOpToken = TOK_OP_OR then do
    if instrFlags &&& IF_C ≠ 0 then depositBit 20 true else pure ()
    if instrFlags &&& IF_N ≠ 0 then depositBit 21 true else pure ()
  else if instrOpToken = TOK_OP_XOR then do
    if instrFlags &&& IF_N ≠ 0 then depositBit 21 true else pure ()
  else if instrOpToken = TOK_OP_CMP then do
    if ¬ (hasCmpCodeFlags instrFlags = true) then throw AsmErr.invalidInstrMode
    else setInstrCompareCondField instrFlags
  else pure ()

/-- Source parseModeTypeInstr: the mode-type instructions ADD, SUB, AND,
OR, XOR and CMP, whose operand shape selects the ALU or MEM group form. -/
def parseModeTypeInstr (fuel : Nat) (instrOpToken : Nat) : AsmM Unit := do
  nextToken
  let instrFlags ← parseInstrOptions fuel instrOpToken
  acceptRegR fuel
  acceptComma
  let r ← parseExpr fuel
  if r.typ = TYP_NUM then do
    replaceInstrGroupField OPG_MEM
    if instrOpToken = TOK_OP_CMP then replaceInstrOpCodeField OPF_CMP_A
    else pure ()
    checkOfsAlignment (toInt32 r.val) instrFlags
    setInstrDwField instrFlags
    depositScaledImm13 (toInt32 r.val)
    acceptLparen
    acceptRegB fuel
    acceptRparen
    acceptEOS
    modeTypePost instrOpToken instrFlags
  else if r.typ = TYP_GREG then do
    let st ← get
    if st.currentToken.tid = TOK_COMMA then do
      if hasDataWidthFlags instrFlags then throw AsmErr.invalidInstrMode
      else do
        replaceInstrGroupField OPG_ALU
        let tmpRegId := r.val
        nextToken
        let r ← parseExpr fuel
        if r.typ = TYP_NUM then do
          if instrOpToken = TOK_OP_CMP then replaceInstrOpCodeField OPF_CMP_B
          else depositBit 19 true
          modify fun st => { st with instr := depositInstrRegB st.instr tmpRegId }
          depositImm15 (toInt32 r.val)
          acceptEOS
          modeTypePost instrOpToken instrFlags
        else if r.typ = TYP_GREG then do
          if instrOpToken = TOK_OP_CMP then replaceInstrOpCodeField OPF_CMP_A
          else pure ()
          modify fun st => { st with instr := depositInstrRegB st.instr tmpRegId }
          modify fun st => { st with instr := depositInstrRegA st.instr r.val }
          acceptEOS
          modeTypePost instrOpToken instrFlags
        else throw AsmErr.expectedGeneralReg
    else if st.currentToken.tid = TOK_LPAREN then do
      replaceInstrGroupField OPG_MEM
      if instrOpToken = TOK_OP_CMP then replaceInstrOpCodeField OPF_CMP_B
      else depositBit 19 true
      setInstrDwField instrFlags
      modify fun st => { st with instr := depositInstrRegA st.instr r.val }
      nextToken
      acceptRegB fuel
      acceptRparen
      acceptEOS
      modeTypePost instrOpToken instrFlags
    else throw AsmErr.expectedComma
  else modeTypePost instrOpToken instrFlags

/-- Source parseInstrEXTR. -/
def parseInstrEXTR (fuel : Nat) (instrOpToken : Nat) : AsmM Unit := do
  nextToken
  let instrFlags ← parseInstrOptions fuel instrOpToken
  acceptRegR fuel
  acceptComma
  acceptRegB fuel
  acceptComma
  let r ← parseExpr fuel
  let pos : Nat ←
    if r.typ = TYP_NUM then do
      depositFieldU 6 6 (toUInt32n r.val)
      pure (toUInt32n r.val)
    else if r.typ = TYP_CREG ∧ r.val = 2 then do
      depositBit 13 true
      pure 0
    else throw AsmErr.expectedPosArg
  acceptComma
  let r ← parseExpr fuel
  let len : Nat ←
    if r.typ = TYP_NUM then do
      depositFieldU 0 6 (toUInt32n r.val)
      pure (toUInt32n r.val)
    else throw AsmErr.expectedLenArg
  if instrFlags &&& IF_S ≠ 0 then depositBit 12 true else pure ()
  acceptEOS
  if pos + len > 64 then throw AsmErr.bitRangeExceeds else pure ()

/-- Source parseInstrDEP. -/
def parseInstrDEP (fuel : Nat) (instrOpToken : Nat) : AsmM Unit := do
  nextToken
  let instrFlags ← parseInstrOptions fuel instrOpToken
  if instrFlags &&& IF_Z ≠ 0 then depositBit 12 true else pure ()
  acceptRegR fuel
  acceptComma
  let r ← parseExpr fuel
  if r.typ = TYP_GREG then
    modify fun st => { st with instr := depositInstrRegB st.instr r.val }
  else if r.typ = TYP_NUM then do
    depositFieldU 15 4 (toUInt32n r.val)
    depositBit 14 true
  else throw AsmErr.expectedPosArg
  acceptComma
  let r ← parseExpr fuel
  let pos : Nat ←
    if r.typ = TYP_CREG ∧ r.val = 2 then do
      depositBit 13 true
      pure 0
    else if r.typ = TYP_NUM then do
      depositFieldU 6 6 (toUInt32n r.val)
      pure (toUInt32n r.val)
    else throw AsmErr.expectedPosArg
  acceptComma
  let r ← parseExpr fuel
  let len : Nat ←
    if r.typ = TYP_NUM then do
      depositFieldU 0 6 (toUInt32n r.val)
      pure (toUInt32n r.val)
    else throw AsmErr.expectedLenArg
  acceptEOS
  if pos + len > 64 then throw AsmErr.bitRangeExceeds else pure ()

/-- Source parseInstrDSR. -/
def parseInstrDSR (fuel : Nat) (_instrOpToken : Nat) : AsmM Unit := do
  nextToken
  acceptRegR fuel
  acceptComma
  acceptRegB fuel
  acceptComma
  acceptRegA fuel
  acceptComma
  let r ← parseExpr fuel
  if r.typ = TYP_NUM then depositFieldU 0 6 (toUInt32n r.val)
  else if r.typ = TYP_CREG ∧ r.val = 2 then depositBit 13 true
  else throw AsmErr.expectedLenArg
  acceptEOS

/-- Source parseInstrSHLxA. -/
def parseInstrSHLxA (fuel : Nat) (instrOpToken : Nat) : AsmM Unit := do
  nextToken
  let _instrFlags ← parseInstrOptions fuel instrOpToken
  if instrOpToken = TOK_OP_SHL1A then depositFieldRaw 13 2 1
  else if instrOpToken = TOK_OP_SHL2A then depositFieldRaw 13 2 2
  else if instrOpToken = TOK_OP_SHL3A then depositFieldRaw 13 2 3
  else pure ()
  acceptRegR fuel
  acceptComma
  acceptRegB fuel
  acceptComma
  let r ← parseExpr fuel
  if r.typ = TYP_GREG then do
    depositFieldRaw 19 3 0
    modify fun st => { st with instr := depositInstrRegA st.instr r.val }
  else if r.typ = TYP_NUM then do
    depositFieldRaw 19 3 1
    depositImm13 (toInt32 r.val)
  else throw AsmErr.expectedGeneralReg
  acceptEOS

/-- Source parseInstrSHRxA. -/
def parseInstrSHRxA (fuel : Nat) (instrOpToken : Nat) : AsmM Unit := do
  nextToken
  let _instrFlags ← parseInstrOptions fuel instrOpToken
  if instrOpToken = TOK_OP_SHR1A then depositFieldRaw 13 2 1
  else if instrOpToken = TOK_OP_SHR2A then depositFieldRaw 13 2 2
  else if instrOpToken = TOK_OP_SHR3A then depositFieldRaw 13 2 3
  else pure ()
  acceptRegR fuel
  acceptComma
  acceptRegB fuel
  acceptComma
  let r ← parseExpr fuel
  if r.typ = TYP_GREG then do
    depositFieldRaw 19 3 2
    modify fun st => { st with instr := depositInstrRegA st.instr r.val }
  else if r.typ = TYP_NUM then do
    depositFieldRaw 19 3 3
    depositImm13 (toInt32 r.val)
  else throw AsmErr.expectedGeneralReg
  acceptEOS

/-- Source parseInstrImmOp (LDIL and ADDIL). -/
def parseInstrImmOp (fuel : Nat) (instrOpToken : Nat) : AsmM Unit := do
  nextToken
  let instrFlags ← parseInstrOptions fuel instrOpToken
  if instrFlags &&& IF_L ≠ 0 then depositFieldU 20 2 1
  else if instrFlags &&& IF_M ≠ 0 then depositFieldU 20 2 2
  else if instrFlags &&& IF_U ≠ 0 then depositFieldU 20 2 3
  else depositFieldU 20 2 1
  acceptRegR fuel
  acceptComma
  let r ← parseExpr fuel
  if r.typ = TYP_NUM then depositImm20U (toUInt32n r.val)
  else throw AsmErr.expectedNumeric
  acceptEOS

/-- Source parseInstrLDO. -/
def parseInstrLDO (fuel : Nat) (instrOpToken : Nat) : AsmM Unit := do
  nextToken
  let instrFlags ← parseInstrOptions fuel instrOpToken
  setInstrDwField instrFlags
  acceptRegR fuel
  acceptComma
  let r ← parseExpr fuel
  if r.typ = TYP_NUM then do
    checkOfsAlignment (toInt32 r.val) instrFlags
    depositScaledImm13 (toInt32 r.val)
  else if r.typ = TYP_GREG then do
    if hasDataWidthFlags instrFlags ∧ instrFlags &&& IF_D = 0 then
      throw AsmErr.invalidInstrOpt
    else do
      depositFieldU 13 2 0
      depositBit 19 true
      modify fun st => { st with instr := depositInstrRegA st.instr r.val }
  else depositScaledImm13 0
  acceptLparen
  acceptRegB fuel
  acceptRparen
  acceptEOS

/-- Source parseMemOp (LD, LDR, ST and STC). -/
def parseMemOp (fuel : Nat) (instrOpToken : Nat) : AsmM Unit := do
  nextToken
  let instrFlags ← parseInstrOptions fuel instrOpToken
  setInstrDwField instrFlags
  acceptRegR fuel
  acceptComma
  if instrFlags &&& IF_U ≠ 0 then depositBit 20 true else pure ()
  let r ← parseExpr fuel
  if r.typ = TYP_NUM then do
    depositBit 19 false
    depositScaledImm13 (toInt32 r.val)
  else if r.typ = TYP_GREG then do
    if instrOpToken = TOK_OP_LDR ∨ instrOpToken = TOK_OP_STC then
      throw AsmErr.invalidInstrMode
    else do
      depositBit 19 true
      modify fun st => { st with instr := depositInstrRegA st.instr r.val }
  else throw AsmErr.expectedNumeric
  acceptLparen
  acceptRegB fuel
  acceptRparen
  acceptEOS

/-- Source parseInstrB. -/
def parseInstrB (fuel : Nat) (instrOpToken : Nat) : AsmM Unit := do
  nextToken
  let instrFlags ← parseInstrOptions fuel instrOpToken
  if instrFlags &&& IF_G ≠ 0 then depositBit 19 true else pure ()
  let r ← parseExpr fuel
  if r.typ = TYP_NUM then do
    if ¬ (isAlignedOfs r.val 4 = true) then throw AsmErr.invalidOfs
    else depositImm19 (toInt32 (asrW r.val 2))
  else throw AsmErr.expectedBrOfs
  let st ← get
  if st.currentToken.tid = TOK_COMMA then do
    nextToken
    acceptRegR fuel
    acceptEOS
  else if st.currentToken.tid ≠ TOK_EOS then throw AsmErr.expectedComma
  else pure ()

/-- Source parseInstrBE. -/
def parseInstrBE (fuel : Nat) (_instrOpToken : Nat) : AsmM Unit := do
  nextToken
  let r ← parseExpr fuel
  if r.typ = TYP_NUM then do
    if ¬ (isAlignedOfs r.val 4 = true) then throw AsmErr.invalidOfs
    else do
      depositImm15 ((toUInt32n r.val >>> 2 : Nat) : Int)
      acceptLparen
      acceptRegB fuel
      acceptRparen
  else if r.typ = TYP_GREG then
    modify fun st => { st with instr := depositInstrRegB st.instr r.val }
  else pure ()
  let st ← get
  if st.currentToken.tid = TOK_COMMA then do
    nextToken
    acceptRegR fuel
    acceptEOS
  else if st.currentToken.tid ≠ TOK_EOS then throw AsmErr.expectedComma
  else pure ()

/-- Source parseInstrBR. -/
def parseInstrBR (fuel : Nat) (instrOpToken : Nat) : AsmM Unit := do
  nextToken
  let instrFlags ← parseInstrOptions fuel instrOpToken
  if instrFlags &&& IF_W ≠ 0 then depositFieldRaw 13 2 0
  else if instrFlags &&& IF_D ≠ 0 then depositFieldRaw 13 2 1
  else if instrFlags &&& IF_Q ≠ 0 then depositFieldRaw 13 2 2
  else depositFieldRaw 13 2 0
  acceptRegB fuel
  let st ← get
  if st.currentToken.tid = TOK_COMMA then do
    nextToken
    acceptRegR fuel
    acceptEOS
  else if st.currentToken.tid ≠ TOK_EOS then throw AsmErr.expectedComma
  else pure ()

/-- Source parseInstrBV. -/
def parseInstrBV (fuel : Nat) (instrOpToken : Nat) : AsmM Unit := do
  nextToken
  let instrFlags ← parseInstrOptions fuel instrOpToken
  if instrFlags &&& IF_W ≠ 0 then depositFieldRaw 13 2 0
  else if instrFlags &&& IF_D ≠ 0 then depositFieldRaw 13 2 1
  else if instrFlags &&& IF_Q ≠ 0 then depositFieldRaw 13 2 2
  else depositFieldRaw 13 2 0
  let st ← get
  if st.currentToken.typ = TYP_GREG then acceptRegA fuel else pure ()
  let r ← parseExpr fuel
  if r.typ = TYP_GREG then
    modify fun st => { st with instr := depositInstrRegB st.instr r.val }
  else throw AsmErr.expectedLparen
  let st ← get
  if st.currentToken.tid = TOK_COMMA then do
    nextToken
    acceptRegR fuel
    acceptEOS
  else if st.currentToken.tid ≠ TOK_EOS then throw AsmErr.expectedComma
  else pure ()

/-- Source parseInstrBB. -/
def parseInstrBB (fuel : Nat) (instrOpToken : Nat) : AsmM Unit := do
  nextToken
  let instrFlags ← parseInstrOptions fuel instrOpToken
  if instrFlags &&& IF_T ≠ 0 then depositBit 19 true
  else if instrFlags &&& IF_F ≠ 0 then depositBit 19 false
  else throw AsmErr.expectedInstrOpt
  acceptRegR fuel
  acceptComma
  let r ← parseExpr fuel
  if r.typ = TYP_NUM then depositFieldU 13 6 (toUInt32n r.val)
  else if r.typ = TYP_CREG ∧ r.val = 2 then depositBit 20 true
  else throw AsmErr.expectedPosArg
  acceptComma
  let r ← parseExpr fuel
  if r.typ = TYP_NUM then do
    if ¬ (isAlignedOfs r.val 4 = true) then throw AsmErr.invalidOfs
    else depositImm13 (toInt32 (asrW r.val 2))
  else throw AsmErr.expectedBrOfs
  acceptEOS

/-- Source parseInstrXBR (ABR, CBR and MBR): condition options, RegR, RegB
and a branch offset that must be 4-aligned and is stored divided by 4. -/
def parseInstrXBR (fuel : Nat) (instrOpToken : Nat) : AsmM Unit := do
  nextToken
  let instrFlags ← parseInstrOptions fuel instrOpToken
  if ¬ (hasCmpCodeFlags instrFlags = true) then throw AsmErr.expectedInstrOpt
  else pure ()
  setInstrCompareCondField instrFlags
  acceptRegR fuel
  acceptComma
  acceptRegB fuel
  acceptComma
  let r ← parseExpr fuel
  if r.typ = TYP_NUM then do
    if ¬ (isAlignedOfs r.val 4 = true) then throw AsmErr.invalidOfs
    else depositImm15 (toInt32 (asrW r.val 2))
  else throw AsmErr.expectedBrOfs
  acceptEOS

/-- Source parseInstrMFCR: the target register is accepted through
acceptRegB (depositing into the RegB field), the control register number
goes into bits 5..0. -/
def parseInstrMFCR (fuel : Nat) (_instrOpToken : Nat) : AsmM Unit := do
  nextToken
  acceptRegB fuel
  acceptComma
  let r ← parseExpr fuel
  if r.typ = TYP_CREG then depositFieldRaw 0 6 ((toUInt32n r.val : Nat) : Int)
  else throw AsmErr.expectedControlReg
  acceptEOS

/-- Source parseInstrMTCR. -/
def parseInstrMTCR (fuel : Nat) (_instrOpToken : Nat) : AsmM Unit := do
  nextToken
  acceptRegB fuel
  acceptComma
  let r ← parseExpr fuel
  if r.typ = TYP_CREG then depositFieldRaw 0 6 ((toUInt32n r.val : Nat) : Int)
  else throw AsmErr.expectedControlReg
  let st ← get
  if st.currentToken.tid = TOK_COMMA then do
    nextToken
    acceptRegR fuel
  else pure ()
  acceptEOS

/-- Source parseInstrMFIA. -/
def parseInstrMFIA (fuel : Nat) (instrOpToken : Nat) : AsmM Unit := do
  nextToken
  let instrFlags ← parseInstrOptions fuel instrOpToken
  if instrFlags &&& IF_A ≠ 0 then depositFieldU 19 2 0
  else if instrFlags &&& IF_L ≠ 0 then depositFieldU 19 2 1
  else if instrFlags &&& IF_R ≠ 0 then depositFieldU 19 2 2
  else depositFieldU 19 2 0
  nextToken
  acceptRegR fuel
  acceptEOS

/-- Source parseInstrLPA. -/
def parseInstrLPA (fuel : Nat) (_instrOpToken : Nat) : AsmM Unit := do
  nextToken
  acceptRegR fuel
  acceptComma
  let st ← get
  if st.currentToken.typ = TYP_GREG then acceptRegA fuel else pure ()
  let r ← parseExpr fuel
  if r.typ = TYP_GREG then
    modify fun st => { st with instr := depositInstrRegB st.instr r.val }
  else throw AsmErr.expectedLparen
  acceptEOS

/-- Source parseInstrPRB. -/
def parseInstrPRB (fuel : Nat) (_instrOpToken : Nat) : AsmM Unit := do
  nextToken
  acceptRegR fuel
  acceptComma
  acceptRegB fuel
  acceptComma
  let r ← parseExpr fuel
  if r.typ = TYP_GREG then do
    modify fun st => { st with instr := depositInstrRegA st.instr r.val }
    depositFieldU 13 2 3
  else if r.typ = TYP_NUM then depositFieldRaw 13 2 r.val
  else throw AsmErr.expectedPrbArg
  acceptEOS

/-- Source parseInstrInsertTlb. -/
def parseInstrInsertTlb (fuel : Nat) (_instrOpToken : Nat) : AsmM Unit := do
  nextToken
  acceptRegR fuel
  acceptComma
  acceptRegB fuel
  acceptComma
  acceptRegA fuel
  acceptEOS

/-- Source parseInstrPurgeTlb. -/
def parseInstrPurgeTlb (fuel : Nat) (_instrOpToken : Nat) : AsmM Unit := do
  nextToken
  acceptRegR fuel
  acceptComma
  let st ← get
  if st.currentToken.typ = TYP_GREG then acceptRegA fuel else pure ()
  let r ← parseExpr fuel
  if r.typ = TYP_GREG then
    modify fun st => { st with instr := depositInstrRegB st.instr r.val }
  else throw AsmErr.expectedLparen
  acceptEOS

/-- Source parseInstrFlushCache. -/
def parseInstrFlushCache (fuel : Nat) (_instrOpToken : Nat) : AsmM Unit := do
  nextToken
  acceptRegR fuel
  acceptComma
  let st ← get
  if st.currentToken.typ = TYP_GREG then acceptRegA fuel else pure ()
  let r ← parseExpr fuel
  if r.typ = TYP_GREG then
    modify fun st => { st with instr := depositInstrRegB st.instr r.val }
  else throw AsmErr.expectedLparen
  acceptEOS

/-- Source parseInstrPurgeCache. -/
def parseInstrPurgeCache (fuel : Nat) (_instrOpToken : Nat) : AsmM Unit := do
  nextToken
  acceptRegR fuel
  acceptComma
  let st ← get
  if st.currentToken.typ = TYP_GREG then acceptRegA fuel else pure ()
  let r ← parseExpr fuel
  if r.typ = TYP_GREG then
    modify fun st => { st with instr := depositInstrRegB st.instr r.val }
  else throw AsmErr.expectedLparen
  acceptEOS

/-- Source parseInstrSregOp (RSM and SSM). -/
def parseInstrSregOp (fuel : Nat) (_instrOpToken : Nat) : AsmM Unit := do
  nextToken
  acceptRegR fuel
  acceptComma
  let r ← parseExpr fuel
  if r.typ = TYP_NUM then depositFieldU 0 8 (toUInt32n r.val)
  else throw AsmErr.expectedNumeric
  acceptEOS

/-- Source parseInstrRFI. -/
def parseInstrRFI (_fuel : Nat) (_instrOpToken : Nat) : AsmM Unit := do
  nextToken
  acceptEOS

/-- Source parseInstrDIAG. -/
def parseInstrDIAG (fuel : Nat) (_instrOpToken : Nat) : AsmM Unit := do
  nextToken
  acceptRegR fuel
  acceptComma
  let r ← parseExpr fuel
  if r.typ = TYP_NUM then do
    depositFieldRaw 19 3 ((toUInt32n r.val >>> 2 : Nat) : Int)
    depositFieldRaw 20 2 ((toUInt32n r.val : Nat) : Int)
  else throw AsmErr.expectedDiagOp
  acceptComma
  acceptRegB fuel
  acceptComma
  acceptRegA fuel
  acceptEOS

/-- Source parseInstrTrapOp. -/
def parseInstrTrapOp (fuel : Nat) (_instrOpToken : Nat) : AsmM Unit := do
  nextToken
  let r ← parseExpr fuel
  if r.typ = TYP_NUM then do
    depositFieldRaw 13 2 (landW r.val 0x3)
    depositFieldRaw 19 3 (landW (asrW r.val 2) 0x7)
  else throw AsmErr.expectedNumeric
  acceptComma
  acceptRegB fuel
  acceptComma
  acceptRegA fuel
  acceptEOS

/-- Source parseLine: set up the tokenizer, require an opcode token, copy
its instruction template into the word under construction, and dispatch on
the mnemonic. -/
def parseLine (fuel : Nat) (inputStr : String) : AsmM Unit := do
  setupTokenizer inputStr
  let st ← get
  if st.currentToken.typ = TYP_OP_CODE then do
    let instrOpToken := st.currentToken.tid
    modify fun s => { s with instr := toUInt32n s.currentToken.val }
    if instrOpToken = TOK_OP_NOP then parseNopInstr fuel instrOpToken
    else if instrOpToken = TOK_OP_ADD ∨ instrOpToken = TOK_OP_SUB ∨
        instrOpToken = TOK_OP_AND ∨ instrOpToken = TOK_OP_OR ∨
        instrOpToken = TOK_OP_XOR ∨ instrOpToken = TOK_OP_CMP then
      parseModeTypeInstr fuel instrOpToken
    else if instrOpToken = TOK_OP_EXTR then parseInstrEXTR fuel instrOpToken
    else if instrOpToken = TOK_OP_DEP then parseInstrDEP fuel instrOpToken
    else if instrOpToken = TOK_OP_DSR then parseInstrDSR fuel instrOpToken
    else if instrOpToken = TOK_OP_SHL1A ∨ instrOpToken = TOK_OP_SHL2A ∨
        instrOpToken = TOK_OP_SHL3A then
      parseInstrSHLxA fuel instrOpToken
    else if instrOpToken = TOK_OP_SHR1A ∨ instrOpToken = TOK_OP_SHR2A ∨
        instrOpToken = TOK_OP_SHR3A then
      parseInstrSHRxA fuel instrOpToken
    else if instrOpToken = TOK_OP_LDIL ∨ instrOpToken = TOK_OP_ADDIL then
      parseInstrImmOp fuel instrOpToken
    else if instrOpToken = TOK_OP_LDO then parseInstrLDO fuel instrOpToken
    else if instrOpToken = TOK_OP_LD ∨ instrOpToken = TOK_OP_LDR ∨
        instrOpToken = TOK_OP_ST ∨ instrOpToken = TOK_OP_STC then
      parseMemOp fuel instrOpToken
    else if instrOpToken = TOK_OP_B then parseInstrB fuel instrOpToken
    else if instrOpToken = TOK_OP_BE then parseInstrBE fuel instrOpToken
    else if instrOpToken = TOK_OP_BR then parseInstrBR fuel instrOpToken
    else if instrOpToken = TOK_OP_BV then parseInstrBV fuel instrOpToken
    else if instrOpToken = TOK_OP_BB then parseInstrBB fuel instrOpToken
    else if instrOpToken = TOK_OP_ABR ∨ instrOpToken = TOK_OP_MBR ∨
        instrOpToken = TOK_OP_CBR then
      parseInstrXBR fuel instrOpToken
    else if instrOpToken = TOK_OP_MFCR then parseInstrMFCR fuel instrOpToken
    else if instrOpToken = TOK_OP_MTCR then parseInstrMTCR fuel instrOpToken
    else if instrOpToken = TOK_OP_MFIA then parseInstrMFIA fuel instrOpToken
    else if instrOpToken = TOK_OP_LPA then parseInstrLPA fuel instrOpToken
    else if instrOpToken = TOK_OP_PRB then parseInstrPRB fuel instrOpToken
    else if instrOpToken = TOK_OP_IITLB ∨ instrOpToken = TOK_OP_IDTLB then
      parseInstrInsertTlb fuel instrOpToken
    else if instrOpToken = TOK_OP_PITLB ∨ instrOpToken = TOK_OP_PDTLB then
      parseInstrPurgeTlb fuel instrOpToken
    else if instrOpToken = TOK_OP_PICA ∨ instrOpToken = TOK_OP_PDCA then
      parseInstrPurgeCache fuel instrOpToken
    else if instrOpToken = TOK_OP_FICA ∨ instrOpToken = TOK_OP_FDCA then
      parseInstrFlushCache fuel instrOpToken
    else if instrOpToken = TOK_OP_SSM ∨ instrOpToken = TOK_OP_RSM then
      parseInstrSregOp fuel instrOpToken
    else if instrOpToken = TOK_OP_RFI then parseInstrRFI fuel instrOpToken
    else if instrOpToken = TOK_OP_DIAG then parseInstrDIAG fuel instrOpToken
    else if instrOpToken = TOK_OP_TRAP then parseInstrTrapOp fuel instrOpToken
    else throw AsmErr.invalidOpCode
  else throw AsmErr.expectedOpCode

/-- Source T64Assemble::assembleInstr: parse the line inside a try; a
success returns NO_ERR = 0 and the instruction word, a thrown error returns
its nonzero code and zeroes the word. -/
def assembleInstr (inputStr : String) (fuel : Nat) : Nat × Nat :=
  match (parseLine fuel inputStr).run initAsmState with
  | .ok (_, st) => (0, st.instr)
  | .error e => (asmErrCode e, 0)

end Asm

namespace DisAsm

/-! ## One-line disassembler (T64-InlineDisAsm.cpp)

The C++ routines build the text with snprintf into fixed buffers of sizes
LEN_16 = 16 and LEN_32 = 32 and concatenate at the returned cursor. Every
string produced below stays under those limits, so no truncation occurs and
plain string concatenation is a faithful embedding. The rdx parameter of
buildOperandStr is unused by the source routine and is omitted. -/

/-- Source printCondField: the condition code suffix table. -/
def printCondField (cmpCode : Nat) : String :=
  match cmpCode with
  | 0 => ".EQ"
  | 1 => ".LT"
  | 2 => ".GT"
  | 3 => ".EV"
  | 4 => ".NE"
  | 5 => ".GE"
  | 6 => ".LE"
  | 7 => ".OD"
  | _ => ".**"

/-- Source printDwField: the data width suffix; D is the default and prints
nothing. -/
def printDwField (dw : Nat) : String :=
  match dw with
  | 0 => ".B"
  | 1 => ".H"
  | 2 => ".W"
  | 3 => ""
  | _ => ".*dw*"

/-- Source buildOpCodeStr: decode the mnemonic and option portion from the
opKey, which is OpGroup * 16 + OpCode. -/
def buildOpCodeStr (instr : Nat) : String :=
  let opCode := extractInstrOpGroup instr * 16 + extractInstrOpCode instr
  if opCode = OPC_GRP_ALU * 16 + OPC_ADD then "ADD"
  else if opCode = OPC_GRP_MEM * 16 + OPC_ADD then
    "ADD" ++ printDwField (extractInstrDwField instr)
  else if opCode = OPC_GRP_ALU * 16 + OPC_SUB then "SUB"
  else if opCode = OPC_GRP_MEM * 16 + OPC_SUB then
    "SUB" ++ printDwField (extractInstrDwField instr)
  else if opCode = OPC_GRP_ALU * 16 + OPC_AND then
    "AND" ++ (if extractInstrBit instr 20 ≠ 0 then ".C" else "")
      ++ (if extractInstrBit instr 21 ≠ 0 then ".N" else "")
  else if opCode = OPC_GRP_MEM * 16 + OPC_AND then
    "AND" ++ printDwField (extractInstrDwField instr)
      ++ (if extractInstrBit instr 20 ≠ 0 then ".C" else "")
      ++ (if extractInstrBit instr 21 ≠ 0 then ".N" else "")
  else if opCode = OPC_GRP_ALU * 16 + OPC_OR then
    "OR" ++ (if extractInstrBit instr 20 ≠ 0 then ".C" else "")
      ++ (if extractInstrBit instr 21 ≠ 0 then ".N" else "")
  else if opCode = OPC_GRP_MEM * 16 + OPC_OR then
    "OR" ++ printDwField (extractInstrDwField instr)
      ++ (if extractInstrBit instr 20 ≠ 0 then ".C" else "")
      ++ (if extractInstrBit instr 21 ≠ 0 then ".N" else "")
  else if opCode = OPC_GRP_ALU * 16 + OPC_XOR then
    "XOR" ++ (if extractInstrBit instr 20 ≠ 0 then ".**" else "")
      ++ (if extractInstrBit instr 21 ≠ 0 then ".N" else "")
  else if opCode = OPC_GRP_MEM * 16 + OPC_XOR then
    "XOR" ++ printDwField (extractInstrDwField instr)
      ++ (if extractInstrBit instr 20 ≠ 0 then ".**" else "")
      ++ (if extractInstrBit instr 21 ≠ 0 then ".N" else "")
  else if opCode = OPC_GRP_ALU * 16 + OPC_CMP_A ∨
      opCode = OPC_GRP_ALU * 16 + OPC_CMP_B then
    "CMP" ++ printCondField (extractInstrFieldU instr 19 3)
  else if opCode = OPC_GRP_MEM * 16 + OPC_CMP_A ∨
      opCode = OPC_GRP_MEM * 16 + OPC_CMP_B then
    "CMP" ++ printCondField (extractInstrFieldU instr 19 3)
      ++ printDwField (extractInstrDwField instr)
  else if opCode = OPC_GRP_ALU * 16 + OPC_BITOP then
    match extractInstrFieldU instr 19 3 with
    | 0 => "EXTR" ++ (if extractInstrBit instr 12 ≠ 0 then ".S" else "")
    | 1 => "DEP" ++ (if extractInstrBit instr 12 ≠ 0 then ".Z" else "")
    | 2 => "DSR"
    | _ => "**BITOP**"
  else if opCode = OPC_GRP_ALU * 16 + OPC_SHAOP then
    match extractInstrFieldU instr 19 3 with
    | 0 | 1 =>
      match extractInstrFieldU instr 13 2 with
      | 1 => "SHL1A"
      | 2 => "SHL2A"
      | 3 => "SHL3A"
      | _ => "**SHAOP**"
    | 2 | 3 =>
      match extractInstrFieldU instr 13 2 with
      | 1 => "SHR1A"
      | 2 => "SHR2A"
      | 3 => "SHR3A"
      | _ => "**SHAOP**"
    | _ => "**SHAOP**"
  else if opCode = OPC_GRP_ALU * 16 + OPC_IMMOP then
    match extractInstrFieldU instr 20 2 with
    | 0 => "ADDIL"
    | 1 => "LDI.L"
    | 2 => "LDI.S"
    | _ => "LDI.U"
  else if opCode = OPC_GRP_ALU * 16 + OPC_LDO then
    "LDO" ++ (if extractInstrFieldU instr 19 3 = 0 then
      printDwField (extractInstrDwField instr) else "")
  else if opCode = OPC_GRP_MEM * 16 + OPC_LD then
    "LD" ++ (if extractInstrBit instr 20 ≠ 0 then ".U" else "")
      ++ printDwField (extractInstrDwField instr)
  else if opCode = OPC_GRP_MEM * 16 + OPC_ST then
    "ST" ++ printDwField (extractInstrDwField instr)
  else if opCode = OPC_GRP_MEM * 16 + OPC_LDR then
    "LDR" ++ (if extractInstrBit instr 20 ≠ 0 then ".U" else "")
  else if opCode = OPC_GRP_MEM * 16 + OPC_STC then
    "STC" ++ (if extractInstrFieldU instr 19 3 ≠ 0 then ".**" else "")
  else if opCode = OPC_GRP_BR * 16 + OPC_B then
    "B" ++ (if extractInstrFieldU instr 20 2 ≠ 0 then ".**" else "")
      ++ (if extractInstrBit instr 19 ≠ 0 then ".G" else "")
  else if opCode = OPC_GRP_BR * 16 + OPC_BE then
    "BE" ++ (if extractInstrFieldU instr 20 2 ≠ 0 then ".**" else "")
      ++ (if extractInstrBit instr 19 ≠ 0 then ".G" else "")
  else if opCode = OPC_GRP_BR * 16 + OPC_BR ∨
      opCode = OPC_GRP_BR * 16 + OPC_BV then
    "BR" ++ (if extractInstrFieldU instr 13 2 = 0 then ".W"
      else if extractInstrFieldU instr 13 2 = 1 then ".D"
      else if extractInstrFieldU instr 13 2 = 2 then ".Q"
      else ".**")
  else if opCode = OPC_GRP_BR * 16 + OPC_BB then
    "BB" ++ (if extractInstrBit instr 21 ≠ 0 then ".**" else "")
      ++ (if extractInstrBit instr 19 ≠ 0 then ".T" else ".F")
  else if opCode = OPC_GRP_BR * 16 + OPC_CBR then
    "CBR" ++ printCondField (extractInstrFieldU instr 19 3)
  else if opCode = OPC_GRP_BR * 16 + OPC_MBR then
    "MBR" ++ printCondField (extractInstrFieldU instr 19 3)
  else if opCode = OPC_GRP_BR * 16 + OPC_ABR then
    "ABR" ++ printCondField (extractInstrFieldU instr 19 3)
  else if opCode = OPC_GRP_SYS * 16 + OPC_MR then
    if extractInstrFieldU instr 19 3 = 0 then "MFCR"
    else if extractInstrFieldU instr 19 3 = 1 then "MTCR"
    else if extractInstrBit instr 21 ≠ 0 then "MFIA"
    else "**MROP**"
  else if opCode = OPC_GRP_SYS * 16 + OPC_LPA then
    if extractInstrFieldU instr 19 3 = 0 then "LPA" else "**LPAOP**"
  else if opCode = OPC_GRP_SYS * 16 + OPC_PRB then
    if extractInstrFieldU instr 19 3 = 0 then "PRB" else "**PRBOP**"
  else if opCode = OPC_GRP_SYS * 16 + OPC_TLB then
    match extractInstrFieldU instr 19 3 with
    | 0 => "IITLB"
    | 1 => "IDTLB"
    | 2 => "PITLB"
    | 3 => "PDTLB"
    | _ => "**TLB**"
  else if opCode = OPC_GRP_SYS * 16 + OPC_CA then
    match extractInstrFieldU instr 19 3 with
    | 0 => "PICA"
    | 1 => "PDCA"
    | 2 => "FICA"
    | 3 => "FDCA"
    | _ => "**CA**"
  else if opCode = OPC_GRP_SYS * 16 + OPC_MST then
    if extractInstrFieldU instr 19 3 = 0 then "RSM"
    else if extractInstrFieldU instr 19 3 = 1 then "SSM"
    else "**MST**"
  else if opCode = OPC_GRP_SYS * 16 + OPC_RFI then "RFI"
  else if opCode = OPC_GRP_SYS * 16 + OPC_TRAP then "TRAP"
  else if opCode = OPC_GRP_SYS * 16 + OPC_DIAG then "DIAG"
  else if opCode = OPC_GRP_ALU * 16 + OPC_NOP then "NOP"
  else "**OPC:" ++ toString opCode ++ "**"

/-- The operand body of the LPA case of buildOperandStr; the MR case falls
through into it in the source when the opt1 field is 2 or larger and bit 21
is clear (a C++ switch case without a closing return). -/
def lpaOperand (instr : Nat) : String :=
  "R" ++ toString (extractInstrRegR instr) ++ ","
    ++ (if extractInstrRegA instr ≠ 0 then
          "R" ++ toString (extractInstrRegA instr) else "")
    ++ "(R" ++ toString (extractInstrRegB instr) ++ ")"

/-- Source buildOperandStr: decode the operand portion from the opKey. The
left shifts by 2 of signed immediates print the offset times four. -/
def buildOperandStr (instr : Nat) : String :=
  let opCode := extractInstrFieldU instr 30 2 * 16 + extractInstrFieldU instr 26 4
  if opCode = OPC_GRP_ALU * 16 + OPC_ADD ∨ opCode = OPC_GRP_ALU * 16 + OPC_SUB ∨
      opCode = OPC_GRP_ALU * 16 + OPC_AND ∨ opCode = OPC_GRP_ALU * 16 + OPC_OR ∨
      opCode = OPC_GRP_ALU * 16 + OPC_XOR then
    if extractInstrBit instr 19 ≠ 0 then
      "R" ++ toString (extractInstrRegR instr) ++ ",R"
        ++ toString (extractInstrRegB instr) ++ ","
        ++ toString (extractInstrSignedImm15 instr)
    else
      "R" ++ toString (extractInstrRegR instr) ++ ",R"
        ++ toString (extractInstrRegB instr) ++ ",R"
        ++ toString (extractInstrRegA instr)
  else if opCode = OPC_GRP_ALU * 16 + OPC_CMP_A ∨
      opCode = OPC_GRP_ALU * 16 + OPC_CMP_B then
    if extractInstrBit instr 26 ≠ 0 then
      "R" ++ toString (extractInstrRegR instr) ++ ",R"
        ++ toString (extractInstrRegB instr) ++ ","
        ++ toString (extractInstrSignedImm15 instr)
    else
      "R" ++ toString (extractInstrRegR instr) ++ ",R"
        ++ toString (extractInstrRegB instr) ++ ",R"
        ++ toString (extractInstrRegA instr)
  else if opCode = OPC_GRP_ALU * 16 + OPC_BITOP then
    match extractInstrFieldU instr 19 3 with
    | 0 =>
      if extractInstrBit instr 13 ≠ 0 then
        "R" ++ toString (extractInstrRegR instr) ++ ",R"
          ++ toString (extractInstrRegB instr) ++ ",SAR,"
          ++ toString (extractInstrFieldU instr 0 6)
      else
        "R" ++ toString (extractInstrRegR instr) ++ ",R"
          ++ toString (extractInstrRegB instr) ++ ","
          ++ toString (extractInstrFieldU instr 6 6) ++ ","
          ++ toString (extractInstrFieldU instr 0 6)
    | 1 =>
      if extractInstrBit instr 14 ≠ 0 then
        if extractInstrBit instr 13 ≠ 0 then
          "R" ++ toString (extractInstrRegR instr) ++ ","
            ++ toString (extractInstrFieldU instr 15 4) ++ ",SAR,"
            ++ toString (extractInstrFieldU instr 0 6)
        else
          "R" ++ toString (extractInstrRegR instr) ++ ","
            ++ toString (extractInstrFieldU instr 15 4) ++ ","
            ++ toString (extractInstrFieldU instr 6 6) ++ ","
            ++ toString (extractInstrFieldU instr 0 6)
      else
        if extractInstrBit instr 13 ≠ 0 then
          "R" ++ toString (extractInstrRegR instr) ++ ",R"
            ++ toString (extractInstrRegB instr) ++ ",SAR,"
            ++ toString (extractInstrFieldU instr 0 6)
        else
          "R" ++ toString (extractInstrRegR instr) ++ ",R"
            ++ toString (extractInstrRegB instr) ++ ","
            ++ toString (extractInstrFieldU instr 6 6) ++ ","
            ++ toString (extractInstrFieldU instr 0 6)
    | 2 =>
      if extractInstrBit instr 13 ≠ 0 then
        "R" ++ toString (extractInstrRegR instr) ++ ",R"
          ++ toString (extractInstrRegB instr) ++ ",R"
          ++ toString (extractInstrRegA instr) ++ ",SAR"
      else
        "R" ++ toString (extractInstrRegR instr) ++ ",R"
          ++ toString (extractInstrRegB instr) ++ ",R"
          ++ toString (extractInstrRegA instr) ++ ","
          ++ toString (extractInstrFieldU instr 0 6)
    | _ => "**BITOP**"
  else if opCode = OPC_GRP_ALU * 16 + OPC_SHAOP then
    if extractInstrBit instr 19 ≠ 0 then
      "R" ++ toString (extractInstrRegR instr) ++ ",R"
        ++ toString (extractInstrRegB instr) ++ ","
        ++ toString (extractInstrSignedImm15 instr)
    else
      "R" ++ toString (extractInstrRegR instr) ++ ",R"
        ++ toString (extractInstrRegB instr) ++ ",R"
        ++ toString (extractInstrRegA instr)
  else if opCode = OPC_GRP_ALU * 16 + OPC_IMMOP then
    "R" ++ toString (extractInstrRegR instr) ++ ","
      ++ toString (extractInstrImm20 instr)
  else if opCode = OPC_GRP_MEM * 16 + OPC_ADD ∨ opCode = OPC_GRP_MEM * 16 + OPC_SUB ∨
      opCode = OPC_GRP_MEM * 16 + OPC_AND ∨ opCode = OPC_GRP_MEM * 16 + OPC_OR ∨
      opCode = OPC_GRP_MEM * 16 + OPC_XOR ∨ opCode = OPC_GRP_MEM * 16 + OPC_LD ∨
      opCode = OPC_GRP_MEM * 16 + OPC_ST ∨ opCode = OPC_GRP_MEM * 16 + OPC_LDR ∨
      opCode = OPC_GRP_MEM * 16 + OPC_STC then
    if extractInstrBit instr 19 = 0 then
      "R" ++ toString (extractInstrRegR instr) ++ ","
        ++ toString (extractInstrSignedScaledImm13 instr) ++ "(R"
        ++ toString (extractInstrRegB instr) ++ ")"
    else
      "R" ++ toString (extractInstrRegR instr) ++ ",R"
        ++ toString (extractInstrRegA instr) ++ "(R"
        ++ toString (extractInstrRegB instr) ++ ")"
  else if opCode = OPC_GRP_MEM * 16 + OPC_CMP_A ∨
      opCode = OPC_GRP_MEM * 16 + OPC_CMP_B then
    if extractInstrBit instr 26 = 0 then
      "R" ++ toString (extractInstrRegR instr) ++ ","
        ++ toString (extractInstrSignedScaledImm13 instr) ++ "(R"
        ++ toString (extractInstrRegB instr) ++ ")"
    else
      "R" ++ toString (extractInstrRegR instr) ++ ",R"
        ++ toString (extractInstrRegA instr) ++ "(R"
        ++ toString (extractInstrRegB instr) ++ ")"
  else if opCode = OPC_GRP_ALU * 16 + OPC_LDO then
    if extractInstrFieldU instr 19 3 = 0 then
      "R" ++ toString (extractInstrRegR instr) ++ ","
        ++ toString (extractInstrSignedScaledImm13 instr) ++ "(R"
        ++ toString (extractInstrRegB instr) ++ ")"
    else if extractInstrFieldU instr 19 3 = 1 then
      "R" ++ toString (extractInstrRegR instr) ++ ",R"
        ++ toString (extractInstrRegA instr) ++ "(R"
        ++ toString (extractInstrRegB instr) ++ ")"
    else "***"
  else if opCode = OPC_GRP_BR * 16 + OPC_B then
    toString (extractInstrSignedImm19 instr * 4)
      ++ (if extractInstrRegR instr ≠ 0 then
            ",R" ++ toString (extractInstrRegR instr) else "")
  else if opCode = OPC_GRP_BR * 16 + OPC_BE then
    (if extractInstrSignedImm15 instr ≠ 0 then
        toString (extractInstrSignedImm15 instr * 4) else "")
      ++ "(R" ++ toString (extractInstrRegB instr) ++ ")"
      ++ (if extractInstrRegR instr ≠ 0 then
            ",R" ++ toString (extractInstrRegR instr) else "")
  else if opCode = OPC_GRP_BR * 16 + OPC_BR then
    "R" ++ toString (extractInstrRegB instr)
      ++ (if extractInstrRegR instr ≠ 0 then
            ",R" ++ toString (extractInstrRegR instr) else "")
  else if opCode = OPC_GRP_BR * 16 + OPC_BV then
    (if extractInstrRegA instr ≠ 0 then
        "R" ++ toString (extractInstrRegA instr) else "")
      ++ "(R" ++ toString (extractInstrRegB instr) ++ ")"
      ++ (if extractInstrRegR instr ≠ 0 then
            ",R" ++ toString (extractInstrRegR instr) else "")
  else if opCode = OPC_GRP_BR * 16 + OPC_BB then
    "R" ++ toString (extractInstrRegR instr)
      ++ (if extractInstrBit instr 20 ≠ 0 then ",SAR"
          else "," ++ toString (extractInstrFieldU instr 13 6))
      ++ "," ++ toString (extractInstrSignedImm13 instr * 4)
  else if opCode = OPC_GRP_BR * 16 + OPC_ABR ∨ opCode = OPC_GRP_BR * 16 + OPC_CBR ∨
      opCode = OPC_GRP_BR * 16 + OPC_MBR then
    "R" ++ toString (extractInstrRegR instr) ++ ",R"
      ++ toString (extractInstrRegB instr) ++ ","
      ++ toString (extractInstrSignedImm15 instr * 4)
  else if opCode = OPC_GRP_SYS * 16 + OPC_MR then
    if extractInstrFieldU instr 19 3 = 0 then
      "R" ++ toString (extractInstrRegR instr) ++ ", C"
        ++ toString (extractInstrFieldU instr 0 6)
    else if extractInstrFieldU instr 19 3 = 1 then
      "R" ++ toString (extractInstrRegR instr) ++ ", C"
        ++ toString (extractInstrRegB instr) ++ ",R"
        ++ toString (extractInstrFieldU instr 0 6)
    else if extractInstrBit instr 21 ≠ 0 then
      "R" ++ toString (extractInstrRegR instr)
    else lpaOperand instr
  else if opCode = OPC_GRP_SYS * 16 + OPC_LPA then lpaOperand instr
  else if opCode = OPC_GRP_SYS * 16 + OPC_PRB then
    if extractInstrFieldU instr 13 2 ≤ 2 then
      "R" ++ toString (extractInstrRegR instr) ++ ",R"
        ++ toString (extractInstrRegB instr) ++ ","
        ++ toString (extractInstrFieldU instr 13 2)
    else
      "R" ++ toString (extractInstrRegR instr) ++ ",R"
        ++ toString (extractInstrRegB instr) ++ ",R"
        ++ toString (extractInstrRegA instr)
  else if opCode = OPC_GRP_SYS * 16 + OPC_TLB then
    if extractInstrFieldU instr 19 3 = 0 ∨ extractInstrFieldU instr 19 3 = 1 then
      "R" ++ toString (extractInstrRegR instr) ++ ",R"
        ++ toString (extractInstrRegB instr) ++ ",R"
        ++ toString (extractInstrRegA instr)
    else if extractInstrFieldU instr 19 3 = 2 ∨ extractInstrFieldU instr 19 3 = 3 then
      (if extractInstrRegR instr ≠ 0 then
          "R" ++ toString (extractInstrRegR instr) ++ "," else "")
        ++ (if extractInstrRegA instr ≠ 0 then
              "R" ++ toString (extractInstrRegA instr) else "")
        ++ "(R" ++ toString (extractInstrRegB instr) ++ ")"
    else ""
  else if opCode = OPC_GRP_SYS * 16 + OPC_CA then
    (if extractInstrRegR instr ≠ 0 then
        "R" ++ toString (extractInstrRegR instr) ++ "," else "")
      ++ (if extractInstrRegA instr ≠ 0 then
            "R" ++ toString (extractInstrRegA instr) else "")
      ++ "(R" ++ toString (extractInstrRegB instr) ++ ")"
  else if opCode = OPC_GRP_SYS * 16 + OPC_MST then
    "R" ++ toString (extractInstrRegR instr) ++ ","
      ++ toString (extractInstrFieldU instr 0 6)
  else if opCode = OPC_GRP_SYS * 16 + OPC_RFI then ""
  else if opCode = OPC_GRP_SYS * 16 + OPC_TRAP then
    toString (extractInstrFieldU instr 19 3 * 4 + extractInstrFieldU instr 13 2)
      ++ ",R" ++ toString (extractInstrRegB instr)
      ++ ",R" ++ toString (extractInstrRegA instr)
  else if opCode = OPC_GRP_SYS * 16 + OPC_DIAG then
    "R" ++ toString (extractInstrRegR instr) ++ ","
      ++ toString (extractInstrFieldU instr 19 3 * 4 + extractInstrFieldU instr 13 2)
      ++ ", R" ++ toString (extractInstrRegB instr)
      ++ ",R" ++ toString (extractInstrRegA instr)
  else if opCode = OPC_GRP_ALU * 16 + OPC_NOP then ""
  else "**OPC:" ++ toString opCode ++ "**"

/-- Source T64DisAssemble::formatInstr: the opcode portion, then a space and
the operand portion when the latter is nonempty. -/
def formatInstr (instr : Nat) : String :=
  let opStr := buildOpCodeStr instr
  let operandStr := buildOperandStr instr
  if operandStr.length > 0 then opStr ++ " " ++ operandStr else opStr

end DisAsm

/-! ## Helper lemmas -/

set_option maxRecDepth 16384

namespace Asm

/-! ### Run lemmas for the assembler monad

The monadic runs of concrete assembler inputs are evaluated stepwise: a pin
lemma evaluates one tokenizer or parser action from a literal state by
definitional reduction, and the chain lemmas compose pins along the bind
backbone of the parse routine. -/

theorem asmRunBind (a : AsmM α) (f : α → AsmM β) (s : AsmState) :
    (a >>= f).run s = a.run s >>= fun p => (f p.1).run p.2 := rfl

theorem asmExBindOk (a : α) (f : α → Except AsmErr β) :
    (Except.ok a : Except AsmErr α) >>= f = f a := rfl

theorem asmExBindErr (e : AsmErr) (f : α → Except AsmErr β) :
    (Except.error e : Except AsmErr α) >>= f = Except.error e := rfl

theorem asmRunGet (s : AsmState) :
    (get : AsmM AsmState).run s = .ok (s, s) := rfl

theorem asmRunModify (f : AsmState → AsmState) (s : AsmState) :
    (modify f : AsmM Unit).run s = .ok ((), f s) := rfl

theorem asmRunPure (a : α) (s : AsmState) :
    (pure a : AsmM α).run s = .ok (a, s) := rfl

theorem asmRunThrow (e : AsmErr) (s : AsmState) :
    (throw e : AsmM α).run s = .error e := rfl

/-! ### Pins and chains for the round trip of MFCR R3,C5 (claim C6) -/

theorem c6normVal : toUInt32n 3221225472 = 3221225472 := by rfl

theorem c6normDep3 : depositInstrRegB 3221225472 3 = 3221323776 := by rfl

theorem c6normDep0 : depositInstrRegB 3221225472 0 = 3221225472 := by rfl

theorem c6r1_setup :
    (setupTokenizer "MFCR R3,C5").run initAsmState =
      .ok ((), ⟨['M', 'F', 'C', 'R', ' ', 'R', '3', ',', 'C', '5'], 10, 5, 0,
        ' ', ⟨"MFCR", 6, 351, 3221225472⟩, 0⟩) := by
  show nextToken.run ⟨['M', 'F', 'C', 'R', ' ', 'R', '3', ',', 'C', '5'], 10,
    0, 0, ' ', nilToken, 0⟩ = _
  rfl

theorem c6r1_n2 :
    nextToken.run ⟨['M', 'F', 'C', 'R', ' ', 'R', '3', ',', 'C', '5'], 10, 5,
      0, ' ', ⟨"MFCR", 6, 351, 3221225472⟩, 3221225472⟩ =
    .ok ((), ⟨['M', 'F', 'C', 'R', ' ', 'R', '3', ',', 'C', '5'], 10, 8, 5,
      ',', ⟨"R3", 7, 104, 3⟩, 3221225472⟩) := by rfl

theorem c6r1_e1 :
    (parseExpr 64).run ⟨['M', 'F', 'C', 'R', ' ', 'R', '3', ',', 'C', '5'],
      10, 8, 5, ',', ⟨"R3", 7, 104, 3⟩, 3221225472⟩ =
    .ok ((⟨7, 3⟩ : Expr), ⟨['M', 'F', 'C', 'R', ' ', 'R', '3', ',', 'C', '5'],
      10, 9, 7, 'C', ⟨"", 1, 3, 0⟩, 3221225472⟩) := by rfl

theorem c6r1_n4 :
    nextToken.run ⟨['M', 'F', 'C', 'R', ' ', 'R', '3', ',', 'C', '5'], 10, 9,
      7, 'C', ⟨"", 1, 3, 0⟩, 3221323776⟩ =
    .ok ((), ⟨['M', 'F', 'C', 'R', ' ', 'R', '3', ',', 'C', '5'], 10, 10, 8,
      '\x00', ⟨"C5", 8, 126, 5⟩, 3221323776⟩) := by rfl

theorem c6r1_e2 :
    (parseExpr 64).run ⟨['M', 'F', 'C', 'R', ' ', 'R', '3', ',', 'C', '5'],
      10, 10, 8, '\x00', ⟨"C5", 8, 126, 5⟩, 3221323776⟩ =
    .ok ((⟨8, 5⟩ : Expr), ⟨['M', 'F', 'C', 'R', ' ', 'R', '3', ',', 'C', '5'],
      10, 10, 9, '\x00', ⟨"", 0, 2, 0⟩, 3221323776⟩) := by rfl

theorem c6r1_mfcr :
    (parseInstrMFCR 64 351).run ⟨['M', 'F', 'C', 'R', ' ', 'R', '3', ',', 'C',
      '5'], 10, 5, 0, ' ', ⟨"MFCR", 6, 351, 3221225472⟩, 3221225472⟩ =
    .ok ((), ⟨['M', 'F', 'C', 'R', ' ', 'R', '3', ',', 'C', '5'], 10, 10, 9,
      '\x00', ⟨"", 0, 2, 0⟩, 3221323781⟩) := by
  simp only [parseInstrMFCR, acceptRegB, acceptComma, acceptEOS,
    depositFieldRaw, asmRunBind, asmRunGet, asmRunModify, asmRunPure,
    asmRunThrow, asmExBindOk, asmExBindErr, c6r1_n2, c6r1_e1, c6normDep3,
    c6r1_n4, c6r1_e2, TYP_GREG, TYP_CREG, TOK_COMMA, TOK_EOS,
    Nat.reduceEqDiff, reduceIte]
  rfl

theorem c6r1_line :
    (parseLine 64 "MFCR R3,C5").run initAsmState =
    .ok ((), ⟨['M', 'F', 'C', 'R', ' ', 'R', '3', ',', 'C', '5'], 10, 10, 9,
      '\x00', ⟨"", 0, 2, 0⟩, 3221323781⟩) := by
  simp only [parseLine, asmRunBind, asmRunGet, asmRunModify, asmRunPure,
    asmExBindOk, asmExBindErr, c6r1_setup, c6normVal, c6r1_mfcr,
    TYP_OP_CODE, TOK_OP_NOP, TOK_OP_ADD, TOK_OP_SUB, TOK_OP_AND, TOK_OP_OR,
    TOK_OP_XOR, TOK_OP_CMP, TOK_OP_EXTR, TOK_OP_DEP, TOK_OP_DSR,
    TOK_OP_SHL1A, TOK_OP_SHL2A, TOK_OP_SHL3A, TOK_OP_SHR1A, TOK_OP_SHR2A,
    TOK_OP_SHR3A, TOK_OP_LDIL, TOK_OP_ADDIL, TOK_OP_LDO, TOK_OP_LD,
    TOK_OP_LDR, TOK_OP_ST, TOK_OP_STC, TOK_OP_B, TOK_OP_BE, TOK_OP_BR,
    TOK_OP_BV, TOK_OP_BB, TOK_OP_ABR, TOK_OP_MBR, TOK_OP_CBR, TOK_OP_MFCR,
    Nat.reduceEqDiff, reduceIte, false_or, or_false, or_true, true_or,
    or_self]

theorem c6r2_setup :
    (setupTokenizer "MFCR R0, C5").run initAsmState =
      .ok ((), ⟨['M', 'F', 'C', 'R', ' ', 'R', '0', ',', ' ', 'C', '5'], 11,
        5, 0, ' ', ⟨"MFCR", 6, 351, 3221225472⟩, 0⟩) := by
  show nextToken.run ⟨['M', 'F', 'C', 'R', ' ', 'R', '0', ',', ' ', 'C', '5'],
    11, 0, 0, ' ', nilToken, 0⟩ = _
  rfl

theorem c6r2_n2 :
    nextToken.run ⟨['M', 'F', 'C', 'R', ' ', 'R', '0', ',', ' ', 'C', '5'],
      11, 5, 0, ' ', ⟨"MFCR", 6, 351, 3221225472⟩, 3221225472⟩ =
    .ok ((), ⟨['M', 'F', 'C', 'R', ' ', 'R', '0', ',', ' ', 'C', '5'], 11, 8,
      5, ',', ⟨"R0", 7, 101, 0⟩, 3221225472⟩) := by rfl

theorem c6r2_e1 :
    (parseExpr 64).run ⟨['M', 'F', 'C', 'R', ' ', 'R', '0', ',', ' ', 'C',
      '5'], 11, 8, 5, ',', ⟨"R0", 7, 101, 0⟩, 3221225472⟩ =
    .ok ((⟨7, 0⟩ : Expr), ⟨['M', 'F', 'C', 'R', ' ', 'R', '0', ',', ' ', 'C',
      '5'], 11, 9, 7, ' ', ⟨"", 1, 3, 0⟩, 3221225472⟩) := by rfl

theorem c6r2_n4 :
    nextToken.run ⟨['M', 'F', 'C', 'R', ' ', 'R', '0', ',', ' ', 'C', '5'],
      11, 9, 7, ' ', ⟨"", 1, 3, 0⟩, 3221225472⟩ =
    .ok ((), ⟨['M', 'F', 'C', 'R', ' ', 'R', '0', ',', ' ', 'C', '5'], 11, 11,
      9, '\x00', ⟨"C5", 8, 126, 5⟩, 3221225472⟩) := by rfl

theorem c6r2_e2 :
    (parseExpr 64).run ⟨['M', 'F', 'C', 'R', ' ', 'R', '0', ',', ' ', 'C',
      '5'], 11, 11, 9, '\x00', ⟨"C5", 8, 126, 5⟩, 3221225472⟩ =
    .ok ((⟨8, 5⟩ : Expr), ⟨['M', 'F', 'C', 'R', ' ', 'R', '0', ',', ' ', 'C',
      '5'], 11, 11, 10, '\x00', ⟨"", 0, 2, 0⟩, 3221225472⟩) := by rfl

theorem c6r2_mfcr :
    (parseInstrMFCR 64 351).run ⟨['M', 'F', 'C', 'R', ' ', 'R', '0', ',', ' ',
      'C', '5'], 11, 5, 0, ' ', ⟨"MFCR", 6, 351, 3221225472⟩, 3221225472⟩ =
    .ok ((), ⟨['M', 'F', 'C', 'R', ' ', 'R', '0', ',', ' ', 'C', '5'], 11, 11,
      10, '\x00', ⟨"", 0, 2, 0⟩, 3221225477⟩) := by
  simp only [parseInstrMFCR, acceptRegB, acceptComma, acceptEOS,
    depositFieldRaw, asmRunBind, asmRunGet, asmRunModify, asmRunPure,
    asmRunThrow, asmExBindOk, asmExBindErr, c6r2_n2, c6r2_e1, c6normDep0,
    c6r2_n4, c6r2_e2, TYP_GREG, TYP_CREG, TOK_COMMA, TOK_EOS,
    Nat.reduceEqDiff, reduceIte]
  rfl

theorem c6r2_line :
    (parseLine 64 "MFCR R0, C5").run initAsmState =
    .ok ((), ⟨['M', 'F', 'C', 'R', ' ', 'R', '0', ',', ' ', 'C', '5'], 11, 11,
      10, '\x00', ⟨"", 0, 2, 0⟩, 3221225477⟩) := by
  simp only [parseLine, asmRunBind, asmRunGet, asmRunModify, asmRunPure,
    asmExBindOk, asmExBindErr, c6r2_setup, c6normVal, c6r2_mfcr,
    TYP_OP_CODE, TOK_OP_NOP, TOK_OP_ADD, TOK_OP_SUB, TOK_OP_AND, TOK_OP_OR,
    TOK_OP_XOR, TOK_OP_CMP, TOK_OP_EXTR, TOK_OP_DEP, TOK_OP_DSR,
    TOK_OP_SHL1A, TOK_OP_SHL2A, TOK_OP_SHL3A, TOK_OP_SHR1A, TOK_OP_SHR2A,
    TOK_OP_SHR3A, TOK_OP_LDIL, TOK_OP_ADDIL, TOK_OP_LDO, TOK_OP_LD,
    TOK_OP_LDR, TOK_OP_ST, TOK_OP_STC, TOK_OP_B, TOK_OP_BE, TOK_OP_BR,
    TOK_OP_BV, TOK_OP_BB, TOK_OP_ABR, TOK_OP_MBR, TOK_OP_CBR, TOK_OP_MFCR,
    Nat.reduceEqDiff, reduceIte, false_or, or_false, or_true, true_or,
    or_self]

/-! ### Pins and chains for assembling CBR.EQ R1, R2, 0x20 (claim C8) -/

theorem c8normVal : toUInt32n 2483027968 = 2483027968 := by rfl

theorem c8depR : depositInstrRegR 2483027968 1 = 2487222272 := by rfl

theorem c8depB : depositInstrRegB 2487222272 2 = 2487287808 := by rfl

theorem c8notCmp : (¬ (hasCmpCodeFlags 16777216 = true)) = False :=
  eq_false (by decide)

theorem c8strEq : (("EQ" : String) = "EQ") = True := eq_true rfl

theorem c8_setup :
    (setupTokenizer "CBR.EQ R1, R2, 0x20").run initAsmState =
      .ok ((), ⟨c8Line, 19, 4, 0, '.', ⟨"CBR", 6, 346, 2483027968⟩, 0⟩) := by
  show nextToken.run ⟨c8Line, 19, 0, 0, ' ', nilToken, 0⟩ = _
  rfl

theorem c8_n3 :
    nextToken.run ⟨c8Line, 19, 4, 0, '.', ⟨"CBR", 6, 346, 2483027968⟩,
      2483027968⟩ =
    .ok ((), ⟨c8Line, 19, 5, 3, 'E', ⟨"", 1, 4, 0⟩, 2483027968⟩) := by rfl

theorem c8_n4 :
    nextToken.run ⟨c8Line, 19, 5, 3, 'E', ⟨"", 1, 4, 0⟩, 2483027968⟩ =
    .ok ((), ⟨c8Line, 19, 7, 4, ' ', ⟨"EQ", 2, 24, 0⟩, 2483027968⟩) := by rfl

theorem c8_n5 :
    nextToken.run ⟨c8Line, 19, 7, 4, ' ', ⟨"EQ", 2, 24, 0⟩, 2483027968⟩ =
    .ok ((), ⟨c8Line, 19, 10, 7, ',', ⟨"R1", 7, 102, 1⟩, 2483027968⟩) := by
  rfl

set_option maxRecDepth 8192 in
theorem c8_loop :
    (parseInstrOptionsLoop 64 IM_NIL).run ⟨c8Line, 19, 5, 3, 'E',
      ⟨"", 1, 4, 0⟩, 2483027968⟩ =
    .ok (16777216, ⟨c8Line, 19, 10, 7, ',', ⟨"R1", 7, 102, 1⟩,
      2483027968⟩) := by
  simp only [parseInstrOptionsLoop, asmRunBind, asmRunGet, asmRunModify,
    asmRunPure, asmRunThrow, asmExBindOk, asmExBindErr, c8_n4, c8_n5,
    c8strEq, TOK_PERIOD, TOK_OP_B, TOK_IDENT, Nat.reduceEqDiff, reduceIte,
    ne_eq, not_true, not_false_eq_true]
  rfl

theorem c8_opts :
    (parseInstrOptions 64 346).run ⟨c8Line, 19, 5, 3, 'E', ⟨"", 1, 4, 0⟩,
      2483027968⟩ =
    .ok (16777216, ⟨c8Line, 19, 10, 7, ',', ⟨"R1", 7, 102, 1⟩,
      2483027968⟩) := by
  simp only [parseInstrOptions, asmRunBind, asmExBindOk, asmExBindErr,
    c8_loop]
  rfl

theorem c8_setCond :
    (setInstrCompareCondField 16777216).run ⟨c8Line, 19, 10, 7, ',',
      ⟨"R1", 7, 102, 1⟩, 2483027968⟩ =
    .ok ((), ⟨c8Line, 19, 10, 7, ',', ⟨"R1", 7, 102, 1⟩, 2483027968⟩) := by
  rfl

theorem c8_e1 :
    (parseExpr 64).run ⟨c8Line, 19, 10, 7, ',', ⟨"R1", 7, 102, 1⟩,
      2483027968⟩ =
    .ok ((⟨7, 1⟩ : Expr), ⟨c8Line, 19, 11, 9, ' ', ⟨"", 1, 3, 0⟩,
      2483027968⟩) := by rfl

theorem c8_n9 :
    nextToken.run ⟨c8Line, 19, 11, 9, ' ', ⟨"", 1, 3, 0⟩, 2487222272⟩ =
    .ok ((), ⟨c8Line, 19, 14, 11, ',', ⟨"R2", 7, 103, 2⟩, 2487222272⟩) := by
  rfl

theorem c8_e2 :
    (parseExpr 64).run ⟨c8Line, 19, 14, 11, ',', ⟨"R2", 7, 103, 2⟩,
      2487222272⟩ =
    .ok ((⟨7, 2⟩ : Expr), ⟨c8Line, 19, 15, 13, ' ', ⟨"", 1, 3, 0⟩,
      2487222272⟩) := by rfl

theorem c8_n12 :
    nextToken.run ⟨c8Line, 19, 15, 13, ' ', ⟨"", 1, 3, 0⟩, 2487287808⟩ =
    .ok ((), ⟨c8Line, 19, 19, 15, '\x00', ⟨"", 4, 25, 32⟩, 2487287808⟩) := by
  rfl

theorem c8_e3 :
    (parseExpr 64).run ⟨c8Line, 19, 19, 15, '\x00', ⟨"", 4, 25, 32⟩,
      2487287808⟩ =
    .ok ((⟨4, 32⟩ : Expr), ⟨c8Line, 19, 19, 18, '\x00', ⟨"", 0, 2, 0⟩,
      2487287808⟩) := by rfl

theorem c8_xbr :
    (parseInstrXBR 64 346).run ⟨c8Line, 19, 4, 0, '.',
      ⟨"CBR", 6, 346, 2483027968⟩, 2483027968⟩ =
    .ok ((), ⟨c8Line, 19, 19, 18, '\x00', ⟨"", 0, 2, 0⟩, 2487287816⟩) := by
  simp only [parseInstrXBR, acceptRegR, acceptRegB, acceptComma, acceptEOS,
    asmRunBind, asmRunGet, asmRunModify, asmRunPure, asmRunThrow,
    asmExBindOk, asmExBindErr, c8_n3, c8_opts, c8notCmp, c8_setCond, c8_e1,
    c8depR, c8_n9, c8_e2, c8depB, c8_n12, c8_e3, TYP_GREG, TYP_NUM,
    TOK_COMMA, TOK_EOS, Nat.reduceEqDiff, reduceIte, ne_eq, not_true,
    not_false_eq_true]
  rfl

theorem c8_line :
    (parseLine 64 "CBR.EQ R1, R2, 0x20").run initAsmState =
    .ok ((), ⟨c8Line, 19, 19, 18, '\x00', ⟨"", 0, 2, 0⟩, 2487287816⟩) := by
  simp only [parseLine, asmRunBind, asmRunGet, asmRunModify, asmRunPure,
    asmExBindOk, asmExBindErr, c8_setup, c8normVal, c8_xbr,
    TYP_OP_CODE, TOK_OP_NOP, TOK_OP_ADD, TOK_OP_SUB, TOK_OP_AND, TOK_OP_OR,
    TOK_OP_XOR, TOK_OP_CMP, TOK_OP_EXTR, TOK_OP_DEP, TOK_OP_DSR,
    TOK_OP_SHL1A, TOK_OP_SHL2A, TOK_OP_SHL3A, TOK_OP_SHR1A, TOK_OP_SHR2A,
    TOK_OP_SHR3A, TOK_OP_LDIL, TOK_OP_ADDIL, TOK_OP_LDO, TOK_OP_LD,
    TOK_OP_LDR, TOK_OP_ST, TOK_OP_STC, TOK_OP_B, TOK_OP_BE, TOK_OP_BR,
    TOK_OP_BV, TOK_OP_BB, TOK_OP_ABR, TOK_OP_MBR, TOK_OP_CBR,
    Nat.reduceEqDiff, reduceIte, false_or, or_false, or_true, true_or,
    or_self]

/-! ### Pins and chains for the divergence of ADD R1,R2,~3 (claim C7)

The TOK_NEG branch of the source parseFactor recurses without consuming the
tilde token, so the C++ parser never returns on this input. In the fuel
model this shows as exhaustion of every recursion budget: from the state in
which parseFactor faces the tilde token, every budget ends in outOfFuel. -/

theorem c7normVal : toUInt32n 0 = 0 := by rfl

theorem c7depR : depositInstrRegR 0 1 = 4194304 := by rfl

theorem c7grp :
    (4194304 &&& 0x3FFFFFFF) ||| (OPG_ALU &&& 0xC0000000) = 4194304 := by rfl

theorem c7hdw : (hasDataWidthFlags 0 = true) = False := eq_false (by decide)

theorem c7_setup :
    (setupTokenizer "ADD R1,R2,~3").run initAsmState =
      .ok ((), ⟨c7Line, 12, 4, 0, ' ', ⟨"ADD", 6, 304, 0⟩, 0⟩) := by
  show nextToken.run ⟨c7Line, 12, 0, 0, ' ', nilToken, 0⟩ = _
  rfl

theorem c7_n3 :
    nextToken.run ⟨c7Line, 12, 4, 0, ' ', ⟨"ADD", 6, 304, 0⟩, 0⟩ =
    .ok ((), ⟨c7Line, 12, 7, 4, ',', ⟨"R1", 7, 102, 1⟩, 0⟩) := by rfl

theorem c7_nC1 :
    nextToken.run ⟨c7Line, 12, 7, 4, ',', ⟨"R1", 7, 102, 1⟩, 0⟩ =
    .ok ((), ⟨c7Line, 12, 8, 6, 'R', ⟨"", 1, 3, 0⟩, 0⟩) := by rfl

theorem c7_n6 :
    nextToken.run ⟨c7Line, 12, 8, 6, 'R', ⟨"", 1, 3, 0⟩, 4194304⟩ =
    .ok ((), ⟨c7Line, 12, 10, 7, ',', ⟨"R2", 7, 103, 2⟩, 4194304⟩) := by rfl

theorem c7_nC2 :
    nextToken.run ⟨c7Line, 12, 10, 7, ',', ⟨"R2", 7, 103, 2⟩, 4194304⟩ =
    .ok ((), ⟨c7Line, 12, 11, 9, '~', ⟨"", 1, 3, 0⟩, 4194304⟩) := by rfl

theorem c7_nNEG :
    nextToken.run ⟨c7Line, 12, 11, 9, '~', ⟨"", 1, 3, 0⟩, 4194304⟩ =
    .ok ((), ⟨c7Line, 12, 12, 10, '3', ⟨"", 1, 14, 0⟩, 4194304⟩) := by rfl

theorem c7_factor :
    ∀ g : Nat, (parseFactor g).run
      ⟨c7Line, 12, 12, 10, '3', ⟨"", 1, 14, 0⟩, 4194304⟩ =
      .error .outOfFuel := by
  intro g
  induction g with
  | zero => rfl
  | succ k ih =>
    simp only [parseFactor, asmRunBind, asmRunGet, asmRunPure, asmRunThrow,
      asmExBindOk, asmExBindErr, TOK_NUM, TYP_GREG, TYP_CREG, TOK_NEG,
      TOK_LPAREN, Nat.reduceEqDiff, reduceIte, ih]

theorem c7_e3 :
    ∀ g : Nat, (parseExpr (g + 3)).run
      ⟨c7Line, 12, 12, 10, '3', ⟨"", 1, 14, 0⟩, 4194304⟩ =
      .error .outOfFuel := by
  intro g
  simp only [parseExpr, parseTerm, parseFactor, asmRunBind, asmRunGet,
    asmRunPure, asmRunThrow, asmExBindOk, asmExBindErr, c7_factor,
    TOK_PLUS, TOK_MINUS, TOK_NUM, TYP_GREG, TYP_CREG, TOK_NEG, TOK_LPAREN,
    Nat.reduceEqDiff, reduceIte]

theorem c7_opts :
    ∀ g : Nat, (parseInstrOptions (g + 3) 304).run
      ⟨c7Line, 12, 7, 4, ',', ⟨"R1", 7, 102, 1⟩, 0⟩ =
      .ok (0, ⟨c7Line, 12, 7, 4, ',', ⟨"R1", 7, 102, 1⟩, 0⟩) := by
  intro g
  simp only [parseInstrOptions, parseInstrOptionsLoop, asmRunBind,
    asmRunGet, asmRunPure, asmExBindOk, asmExBindErr, TOK_PERIOD,
    Nat.reduceEqDiff, reduceIte]
  rfl

theorem c7_er1 :
    ∀ g : Nat, (parseExpr (g + 3)).run
      ⟨c7Line, 12, 7, 4, ',', ⟨"R1", 7, 102, 1⟩, 0⟩ =
      .ok ((⟨7, 1⟩ : Expr), ⟨c7Line, 12, 8, 6, 'R', ⟨"", 1, 3, 0⟩, 0⟩) := by
  intro g
  simp only [parseExpr, parseTerm, parseFactor, parseTermLoop,
    parseExprLoop, asmRunBind, asmRunGet, asmRunPure, asmRunThrow,
    asmExBindOk, asmExBindErr, c7_nC1, TOK_PLUS, TOK_MINUS, TOK_NUM,
    TYP_GREG, TYP_CREG, TOK_NEG, TOK_LPAREN, TOK_MULT, TOK_DIV, TOK_MOD,
    TOK_AND, TOK_OR, TOK_XOR, Nat.reduceEqDiff, reduceIte, ne_eq, not_true,
    not_false_eq_true, false_or, or_false, or_true, true_or, or_self]

theorem c7_er2 :
    ∀ g : Nat, (parseExpr (g + 3)).run
      ⟨c7Line, 12, 10, 7, ',', ⟨"R2", 7, 103, 2⟩, 4194304⟩ =
      .ok ((⟨7, 2⟩ : Expr),
        ⟨c7Line, 12, 11, 9, '~', ⟨"", 1, 3, 0⟩, 4194304⟩) := by
  intro g
  simp only [parseExpr, parseTerm, parseFactor, parseTermLoop,
    parseExprLoop, asmRunBind, asmRunGet, asmRunPure, asmRunThrow,
    asmExBindOk, asmExBindErr, c7_nC2, TOK_PLUS, TOK_MINUS, TOK_NUM,
    TYP_GREG, TYP_CREG, TOK_NEG, TOK_LPAREN, TOK_MULT, TOK_DIV, TOK_MOD,
    TOK_AND, TOK_OR, TOK_XOR, Nat.reduceEqDiff, reduceIte, ne_eq, not_true,
    not_false_eq_true, false_or, or_false, or_true, true_or, or_self]

theorem c7_mode :
    ∀ g : Nat, (parseModeTypeInstr (g + 3) 304).run
      ⟨c7Line, 12, 4, 0, ' ', ⟨"ADD", 6, 304, 0⟩, 0⟩ =
      .error .outOfFuel := by
  intro g
  simp only [parseModeTypeInstr, acceptRegR, acceptComma,
    replaceInstrGroupField, asmRunBind, asmRunGet, asmRunModify, asmRunPure,
    asmRunThrow, asmExBindOk, asmExBindErr, c7_n3, c7_opts, c7_er1, c7depR,
    c7_n6, c7_er2, c7hdw, c7grp, c7_nNEG, c7_e3, TYP_GREG, TYP_NUM,
    TYP_CREG, TOK_COMMA, TOK_LPAREN, Nat.reduceEqDiff, reduceIte, ne_eq,
    not_true, not_false_eq_true]

theorem c7_line :
    ∀ g : Nat, (parseLine (g + 3) "ADD R1,R2,~3").run initAsmState =
      .error .outOfFuel := by
  intro g
  simp only [parseLine, asmRunBind, asmRunGet, asmRunModify, asmRunPure,
    asmExBindOk, asmExBindErr, c7_setup, c7normVal, c7_mode,
    TYP_OP_CODE, TOK_OP_NOP, TOK_OP_ADD,
    Nat.reduceEqDiff, reduceIte, false_or, or_false, or_true, true_or,
    or_self]

end Asm

/-- The add-overflow predicate of T64-Util.h agrees with mathematical
overflow of the signed 64-bit sum, for operands in the representable
range. -/
theorem willAddOverflow_iff_math (a b : Int)
    (ha1 : I64MIN ≤ a) (ha2 : a ≤ I64MAX)
    (hb1 : I64MIN ≤ b) (hb2 : b ≤ I64MAX) :
    willAddOverflow a b = true ↔ (a + b > I64MAX ∨ a + b < I64MIN) := by
  simp only [willAddOverflow, I64MIN, I64MAX] at *
  split_ifs with h1 h2 <;> simp <;> omega

/-- The signed Imm15 field always lies in the 15-bit two's-complement
range. -/
theorem extractInstrSignedImm15_bounds (w : Nat) :
    -16384 ≤ extractInstrSignedImm15 w ∧ extractInstrSignedImm15 w ≤ 16383 := by
  unfold extractInstrSignedImm15 extractInstrFieldS
  have hle : (w >>> 0) &&& (2 ^ 15 - 1) ≤ 2 ^ 15 - 1 := Nat.and_le_right
  simp only [Nat.shiftRight_zero] at hle ⊢
  norm_num at hle ⊢
  split_ifs with h <;> omega

/-- A trap-delivering execution leaves the general register file and the
PSR untouched: the catch block of instrExecute writes only control
registers. -/
theorem trapCatchUpdate_preserves (s : CpuState) (t : T64Trap) :
    (trapCatchUpdate s t).gRegFile = s.gRegFile ∧
      (trapCatchUpdate s t).psrReg = s.psrReg :=
  ⟨rfl, rfl⟩

/-! ## Claim C1 -/

/-- C1: the claim states that the execute dispatch selects the handler by
the key (OpGroup * 16) + OpCode, so that two words differing only in OpGroup
reach different handlers. The source switch in T64Cpu::instrExecute
scrutinises extractInstrOpCode alone - a 4-bit value - so its case labels of
16 and above (all MEM, BR and SYS labels) are unreachable and the OpGroup
bits are ignored. The words 0x00888001 (ALU-group ADD R2, R1, 1) and
0x40888001 (the same word with OpGroup = MEM) differ only in the OpGroup
field, yet both dispatch to the ALU add handler; the spec-worded key
dispatch would send the MEM word to the MEM add handler. -/
theorem c1_dispatch_ignores_opgroup :
    instrExecuteDispatch 0x00888001 = Handler.aluAdd ∧
    instrExecuteDispatch 0x40888001 = Handler.aluAdd ∧
    extractInstrOpGroup 0x00888001 = OPC_GRP_ALU ∧
    extractInstrOpGroup 0x40888001 = OPC_GRP_MEM ∧
    specOpKeyDispatch 0x00888001 = Handler.aluAdd ∧
    specOpKeyDispatch 0x40888001 = Handler.memAdd ∧
    instrExecuteDispatch 0x40888001 ≠ specOpKeyDispatch 0x40888001 := by
  decide

/-! ## Claim C2 -/

/-- C2: the claim assigns condition codes 5 = GE (val1 >= val2), 6 = LE
(val1 <= val2) and 7 = OD (bit 0 of val1 is one), as the spec and the
assembler and disassembler condition tables do. The CPU evaluator
T64Cpu::evalCond instead computes val1 <= val2 for code 5, val1 >= val2 for
code 6 and tests bit 0 of val1 for being zero for code 7. The first six
conjuncts exhibit the divergence (each returns the opposite of the claimed
predicate); the last five confirm codes 0 to 4. -/
theorem c2_evalcond_codes_5_6_7_diverge :
    evalCond 5 1 0 = 0 ∧ evalCond 5 0 1 = 1 ∧
    evalCond 6 0 1 = 0 ∧ evalCond 6 1 0 = 1 ∧
    evalCond 7 1 0 = 0 ∧ evalCond 7 2 0 = 1 ∧
    evalCond 0 3 3 = 1 ∧ evalCond 1 1 2 = 1 ∧ evalCond 2 2 1 = 1 ∧
    evalCond 3 2 0 = 1 ∧ evalCond 4 1 2 = 1 := by
  decide

/-! ## Claim C3 -/

/-- C3: the claim states that trap delivery leaves IPSR = PSR at the fault,
IINSTR = faulting word, IARG_0 and IARG_1 = the trap arguments, and
PSR = IVA. Executing the overflowing ADD R2, R1, 1 raises the Overflow trap
and the catch block stores IPSR and IINSTR as claimed; but the PSR is left
at the faulting address 0x100 and never receives the IVA value 0x4000 (the
assignment exists in the source only as a comment), and IARG_0 receives the
instruction word rather than a trap-specific argument. -/
theorem c3_trap_delivery_psr_not_iva :
    (instrExecute c3State 0x00888001).psrReg = 0x100 ∧
    getControlReg (instrExecute c3State 0x00888001) CTL_REG_IVA = 0x4000 ∧
    ((0x100 : Int) ≠ 0x4000) ∧
    getControlReg (instrExecute c3State 0x00888001) CTL_REG_IPSR = 0x100 ∧
    getControlReg (instrExecute c3State 0x00888001) CTL_REG_IINSTR = 0x00888001 ∧
    getControlReg (instrExecute c3State 0x00888001) CTL_REG_IARG_0 = 0x00888001 := by
  refine ⟨rfl, rfl, by decide, rfl, rfl, rfl⟩

/-! ## Claim C5 -/

/-- C5: the claim states that IMMOP sub-mode 2 (LDIL.M) deposits the 20-bit
immediate into bits 51..32 of RegR and sub-mode 3 (LDIL.U) deposits the low
12 immediate bits into bits 63..52. The source calls depositField but
discards its result, so RegR is unchanged. The words below encode IMMOP
R1 with immediate 5 in sub-modes 2 (0x28600005) and 3 (0x28700005); from
R1 = 0 the claim expects 5 * 2^32 and 5 * 2^52 respectively, the code
leaves 0. -/
theorem c5_ldil_mid_upper_no_effect :
    getGeneralReg (instrExecute resetState 0x28600005) 1 = 0 ∧
    getGeneralReg (instrExecute resetState 0x28700005) 1 = 0 ∧
    depositField 0 32 20 5 = 5 * 2 ^ 32 ∧
    depositField 0 52 12 5 = 5 * 2 ^ 52 ∧
    ((0 : Int) ≠ 5 * 2 ^ 32) ∧ ((0 : Int) ≠ 5 * 2 ^ 52) := by
  exact ⟨rfl, rfl, by decide, by decide, by decide, by decide⟩

/-! ## Claim C9 -/

/-- C9: willAddOverflow is tight - for signed 64-bit operands it returns
true exactly when the mathematical sum leaves the representable range. -/
theorem c9_willaddoverflow_tight (a b : Int)
    (ha1 : I64MIN ≤ a) (ha2 : a ≤ I64MAX)
    (hb1 : I64MIN ≤ b) (hb2 : b ≤ I64MAX) :
    willAddOverflow a b = true ↔ (a + b > I64MAX ∨ a + b < I64MIN) :=
  willAddOverflow_iff_math a b ha1 ha2 hb1 hb2

/-- Witness for C9 at the concrete input a = INT64_MAX, b = 1. -/
theorem c9_willaddoverflow_tight_witness :
    willAddOverflow 9223372036854775807 1 = true :=
  (c9_willaddoverflow_tight 9223372036854775807 1 (by decide) (by decide)
    (by decide) (by decide)).mpr (by decide)

/-! ## Claim C10 -/

/-- C10: the register accessor routines reduce every index modulo the
register file size 16; index 0 of the general file reads as zero and drops
writes, while a write through index 16 lands in the storage slot of R0. -/
theorem c10_register_index_mod (s : CpuState) (i : Nat) (v : Int) :
    getGeneralReg s 0 = 0 ∧
    (i ≠ 0 → getGeneralReg s i = s.gRegFile (i % 16)) ∧
    setGeneralReg s 0 v = s ∧
    (i ≠ 0 → (setGeneralReg s i v).gRegFile (i % 16) = v) ∧
    (setGeneralReg s 16 v).gRegFile 0 = v ∧
    getGeneralReg (setGeneralReg s 16 v) 0 = 0 ∧
    getControlReg s i = s.cRegFile (i % 16) ∧
    (setControlReg s i v).cRegFile (i % 16) = v := by
  refine ⟨rfl, fun h => ?_, rfl, fun h => ?_, ?_, rfl, rfl, ?_⟩
  · simp [getGeneralReg, h, T64_MAX_GREGS]
  · simp [setGeneralReg, h, T64_MAX_GREGS]
  · simp [setGeneralReg, T64_MAX_GREGS]
  · simp [setControlReg, T64_MAX_CREGS]

/-- Witness for C10 at the concrete index 17: the access goes to storage
slot 17 mod 16 = 1. -/
theorem c10_register_index_mod_witness :
    getGeneralReg resetState 17 = resetState.gRegFile 1 :=
  (c10_register_index_mod resetState 17 0).2.1 (by decide)

/-! ## Claim C4 -/

/-- C4: executing an ALU-group ADD raises the Overflow trap exactly when the
signed addition of the RegB value and the source operand overflows
mathematically, and a trapping execution leaves every general register and
the PSR (hence the instruction address) unchanged - the handler checks
before it writes, and the catch block touches only control registers. -/
theorem c4_alu_add_overflow_trap (s : CpuState) (w : Nat)
    (_hg : extractInstrOpGroup w = OPC_GRP_ALU)
    (hc : extractInstrOpCode w = OPC_ADD)
    (hopt : extractInstrFieldU w 19 3 < 2)
    (hB1 : I64MIN ≤ getRegB s w) (hB2 : getRegB s w ≤ I64MAX)
    (hA1 : I64MIN ≤ getRegA s w) (hA2 : getRegA s w ≤ I64MAX) :
    ((∃ t, instrExecuteE s w = .error t ∧ t.trapCode = .overflow) ↔
      (getRegB s w + aluAddSrc s w > I64MAX ∨
        getRegB s w + aluAddSrc s w < I64MIN)) ∧
    ((getRegB s w + aluAddSrc s w > I64MAX ∨
        getRegB s w + aluAddSrc s w < I64MIN) →
      (instrExecute s w).gRegFile = s.gRegFile ∧
      (instrExecute s w).psrReg = s.psrReg) := by
  have hE : instrExecuteE s w = instrAluAddOp s w := by
    have hkey : extractInstrOpCode w = 0 := hc
    simp [instrExecuteE, hkey, OPC_GRP_ALU, OPC_ADD]
  have hsrc1 : I64MIN ≤ aluAddSrc s w := by
    unfold aluAddSrc
    split_ifs
    · exact hA1
    · have h := (extractInstrSignedImm15_bounds w).1
      simp only [I64MIN]; omega
  have hsrc2 : aluAddSrc s w ≤ I64MAX := by
    unfold aluAddSrc
    split_ifs
    · exact hA2
    · have h := (extractInstrSignedImm15_bounds w).2
      simp only [I64MAX]; omega
  have hiff := willAddOverflow_iff_math (getRegB s w) (aluAddSrc s w)
    hB1 hB2 hsrc1 hsrc2
  have hopt01 : extractInstrFieldU w 19 3 = 0 ∨ extractInstrFieldU w 19 3 = 1 := by
    omega
  have hAdd : instrAluAddOp s w =
      (if willAddOverflow (getRegB s w) (aluAddSrc s w) then
        .error (overFlowTrap s)
      else .ok (nextInstr (setRegR s w (getRegB s w + aluAddSrc s w)))) := by
    rcases hopt01 with ho | ho <;>
      simp [instrAluAddOp, ho, aluAddSrc, addOverFlowCheck, Except.bind] <;>
      split_ifs <;> rfl
  by_cases hov : willAddOverflow (getRegB s w) (aluAddSrc s w) = true
  · have hVal : instrExecuteE s w = .error (overFlowTrap s) := by
      rw [hE, hAdd, if_pos hov]
    constructor
    · constructor
      · intro _; exact hiff.mp hov
      · intro _; exact ⟨overFlowTrap s, hVal, rfl⟩
    · intro _
      have : instrExecute s w = trapCatchUpdate s (overFlowTrap s) := by
        unfold instrExecute; rw [hVal]
      rw [this]
      exact trapCatchUpdate_preserves s (overFlowTrap s)
  · have hov' : willAddOverflow (getRegB s w) (aluAddSrc s w) = false := by
      simpa using hov
    have hVal : instrExecuteE s w =
        .ok (nextInstr (setRegR s w (getRegB s w + aluAddSrc s w))) := by
      rw [hE, hAdd, if_neg (by simp [hov'])]
    constructor
    · constructor
      · rintro ⟨t, ht, -⟩
        rw [hVal] at ht
        exact absurd ht (by simp)
      · intro hmath
        exact absurd (hiff.mpr hmath) (by simp [hov'])
    · intro hmath
      exact absurd (hiff.mpr hmath) (by simp [hov'])

/-- Witness for C4 at Scenario 2: ADD R2, R1, 1 with R1 = INT64_MAX (state
c3State, word 0x00888001) satisfies every hypothesis and overflows. -/
theorem c4_alu_add_overflow_trap_witness :
    (∃ t, instrExecuteE c3State 0x00888001 = .error t ∧
      t.trapCode = .overflow) :=
  (c4_alu_add_overflow_trap c3State 0x00888001 (by decide) (by decide)
    (by decide) (by decide) (by decide) (by decide) (by decide)).1.mpr
    (by decide)

/-! ## Claim C6 -/

/-- C6: the claim states that for every line the assembler accepts with
word w, disassembling w and reassembling the text yields w again (modulo
whitespace and register synonyms). Counterexample MFCR R3,C5: the assembler
accepts it and produces 0xC0018005 (target register R3 deposited in the
RegB field by parseInstrMFCR), but the disassembler prints the RegR field -
which is 0 - so formatInstr gives MFCR R0, C5; reassembling that accepted
line yields 0xC0000005, a different word, and the difference is the
register field, not whitespace or a synonym. -/
theorem c6_roundtrip_mfcr_fails :
    Asm.assembleInstr "MFCR R3,C5" 64 = (0, 0xC0018005) ∧
    DisAsm.formatInstr 0xC0018005 = "MFCR R0, C5" ∧
    Asm.assembleInstr "MFCR R0, C5" 64 = (0, 0xC0000005) ∧
    (0xC0000005 : Nat) ≠ 0xC0018005 := by
  refine ⟨?_, by rfl, ?_, by decide⟩
  · rw [Asm.assembleInstr, Asm.c6r1_line]
  · rw [Asm.assembleInstr, Asm.c6r2_line]

/-! ## Claim C7 -/

/-- C7: the claim states that assembleInstr returns to its caller on every
input line, with 0 and the word on success or a typed nonzero error code
otherwise. Counterexample ADD R1,R2,~3: the TOK_NEG branch of parseFactor
recurses without consuming the tilde token, so the C++ parser recurses
forever and assembleInstr never returns. In the fuel model every recursion
budget of depth three or more reaches the tilde and then exhausts the
remaining budget: the run ends in the outOfFuel modelling artifact (code
99, not a source error code) for every budget, which is the image of a
non-returning execution. -/
theorem c7_assembleinstr_diverges_on_tilde :
    ∀ g : Nat, Asm.assembleInstr "ADD R1,R2,~3" (g + 3) =
      (Asm.asmErrCode Asm.AsmErr.outOfFuel, 0) := by
  intro g
  rw [Asm.assembleInstr, Asm.c7_line g]

/-! ## Claim C8 -/

/-- C8: the claim states that from IA = 0x100 with R1 = R2 = 3, executing
the word assembled from CBR.EQ R1, R2, 0x20 raises no trap and leaves
IA = 0x120. The assembler does produce 0x94410008 with the offset stored
divided by four (Imm15 = 8), but the execution diverges twice from the
claim: the execute switch scrutinises only the 4-bit opcode family, so the
CBR case label (50) is unreachable and the word falls to the default, which
raises the illegal-instruction trap (PSR stays 0x100); and the CBR handler
itself, were it reached as the spec dispatch intends, adds the Imm15 field
unscaled, giving IA = 0x108 - neither path yields 0x120. -/
theorem c8_cbr_scenario_fails :
    Asm.assembleInstr "CBR.EQ R1, R2, 0x20" 64 = (0, 0x94410008) ∧
    instrExecuteDispatch 0x94410008 = Handler.illegal ∧
    specOpKeyDispatch 0x94410008 = Handler.brCbr ∧
    instrExecuteE c8State 0x94410008 = .error (illegalInstrTrap c8State) ∧
    (instrExecute c8State 0x94410008).psrReg = 0x100 ∧
    instrBrCbrOp c8State 0x94410008 = .ok { c8State with psrReg := 0x108 } ∧
    ((0x108 : Int) ≠ 0x120) ∧ ((0x100 : Int) ≠ 0x120) := by
  refine ⟨?_, by decide, by decide, by rfl, by rfl, by rfl, by decide,
    by decide⟩
  rw [Asm.assembleInstr, Asm.c8_line]

end Twin64
